import Mathlib

/-
  Verification of the final-stage-path-tracer-2-0 rendering core.

  The development shallowly embeds the C++ sources (src/source/*.cpp, *.h)
  over exact rational arithmetic.  The geometric kernel (math/vector3.h,
  math/volume.h, math/plane.h, math/intersect.h, math/trace.h) is not part
  of the source drop; every definition that stands in for it is marked
  `Modelled from the spec:` in its doc comment and follows the data model
  of the specification (ch. 3) and the traversal description (ch. 4.1).
-/

namespace FSPT

/- The kernel evaluates every concrete instance below; the rational
arithmetic primitives are restored to their default reducibility so that
`decide` can run them. -/
unseal Rat.add Rat.sub Rat.mul Rat.inv


/-- Modelled from the spec: `Vector3: three floats` (math/vector3.h is
absent).  Components are exact rationals. -/
structure vector3 where
  x : ℚ
  y : ℚ
  z : ℚ
deriving DecidableEq, Repr

/-- Modelled from the spec: `Vector2: two floats` (math/vector3.h absent). -/
structure vector2 where
  x : ℚ
  y : ℚ
deriving DecidableEq, Repr

instance : Zero vector3 := ⟨⟨0, 0, 0⟩⟩

instance : Zero vector2 := ⟨⟨0, 0⟩⟩

instance : Add vector3 := ⟨fun a b => ⟨a.x + b.x, a.y + b.y, a.z + b.z⟩⟩

instance : Sub vector3 := ⟨fun a b => ⟨a.x - b.x, a.y - b.y, a.z - b.z⟩⟩

instance : Neg vector3 := ⟨fun a => ⟨-a.x, -a.y, -a.z⟩⟩

/-- Componentwise product, as used by the material library for colors. -/
instance : Mul vector3 := ⟨fun a b => ⟨a.x * b.x, a.y * b.y, a.z * b.z⟩⟩

/-- Scaling a vector by a scalar on the right, as in the C++ `vector3 * f`. -/
instance : HMul vector3 ℚ vector3 := ⟨fun v q => ⟨v.x * q, v.y * q, v.z * q⟩⟩

/-- Modelled from the spec: dot product of the geometry kernel. -/
def dot (a b : vector3) : ℚ := a.x * b.x + a.y * b.y + a.z * b.z

/-- Modelled from the spec: `Plane: coefficients (a,b,c,d)`; the field names
x,y,z,w follow the C++ accesses `face_plane->x` … in mesh.cpp. -/
structure plane where
  x : ℚ
  y : ℚ
  z : ℚ
  w : ℚ
deriving DecidableEq, Repr

/-- Modelled from the spec: `signed distance = a·x+b·y+c·z+d`. -/
def plane_distance (pl : plane) (p : vector3) : ℚ :=
  pl.x * p.x + pl.y * p.y + pl.z * p.z + pl.w

/-- Modelled from the spec: the plane through point `p` with normal `n`
(callers of `calculate_plane` in the sources pass unit or axis normals; no
normalization is performed here, which only fixes the scale of the signed
distance, never its sign). -/
def calculate_plane (n p : vector3) : plane :=
  ⟨n.x, n.y, n.z, -(dot n p)⟩

/-- Modelled from the spec: `Bounds (AABB): min and max corners`. -/
structure bounds where
  bounds_min : vector3
  bounds_max : vector3
deriving DecidableEq, Repr

/-- Modelled from the spec: the AABB center `query_center`. -/
def bounds.query_center (bb : bounds) : vector3 :=
  ⟨(bb.bounds_min.x + bb.bounds_max.x) / 2,
   (bb.bounds_min.y + bb.bounds_max.y) / 2,
   (bb.bounds_min.z + bb.bounds_max.z) / 2⟩

/-- Modelled from the spec: the AABB volume `query_volume`. -/
def bounds.query_volume (bb : bounds) : ℚ :=
  (bb.bounds_max.x - bb.bounds_min.x) * (bb.bounds_max.y - bb.bounds_min.y) *
    (bb.bounds_max.z - bb.bounds_min.z)

/-- Modelled from the spec: AABB union (`operator +=` on two bounds),
componentwise min of minima and max of maxima. -/
def bounds.union (a b : bounds) : bounds :=
  ⟨⟨min a.bounds_min.x b.bounds_min.x, min a.bounds_min.y b.bounds_min.y,
    min a.bounds_min.z b.bounds_min.z⟩,
   ⟨max a.bounds_max.x b.bounds_max.x, max a.bounds_max.y b.bounds_max.y,
    max a.bounds_max.z b.bounds_max.z⟩⟩

/-- A bounds value whose corners are ordered, the only shape the BVH ever
sees (spec: `A Bounds is never empty when given to the BVH`). -/
def bounds.valid (bb : bounds) : Prop :=
  bb.bounds_min.x ≤ bb.bounds_max.x ∧ bb.bounds_min.y ≤ bb.bounds_max.y ∧
    bb.bounds_min.z ≤ bb.bounds_max.z

instance (bb : bounds) : Decidable bb.valid := by
  unfold bounds.valid; infer_instance

/-- Modelled from the spec: `point_in_bounds` is componentwise containment
between the two corners (closed on both sides). -/
def point_in_bounds (bb : bounds) (p : vector3) : Bool :=
  bb.bounds_min.x ≤ p.x ∧ p.x ≤ bb.bounds_max.x ∧
  bb.bounds_min.y ≤ p.y ∧ p.y ≤ bb.bounds_max.y ∧
  bb.bounds_min.z ≤ p.z ∧ p.z ≤ bb.bounds_max.z

/-- Membership in the open interior of an AABB (used to state that octant
children only overlap on the split planes). -/
def bounds.inside_open (bb : bounds) (p : vector3) : Prop :=
  bb.bounds_min.x < p.x ∧ p.x < bb.bounds_max.x ∧
  bb.bounds_min.y < p.y ∧ p.y < bb.bounds_max.y ∧
  bb.bounds_min.z < p.z ∧ p.z < bb.bounds_max.z

/-- Modelled from the spec: AABB/AABB overlap (`bounds_intersect_bounds`),
overlap of the three coordinate intervals. -/
def bounds_intersect_bounds (a b : bounds) : Bool :=
  a.bounds_min.x ≤ b.bounds_max.x ∧ b.bounds_min.x ≤ a.bounds_max.x ∧
  a.bounds_min.y ≤ b.bounds_max.y ∧ b.bounds_min.y ≤ a.bounds_max.y ∧
  a.bounds_min.z ≤ b.bounds_max.z ∧ b.bounds_min.z ≤ a.bounds_max.z

/-- Modelled from the spec: `Ray: start point, stop point,
direction = stop−start`.  The `dir` field is stored separately because the
sources mutate `start` without refreshing `dir`. -/
structure ray where
  start : vector3
  stop : vector3
  dir : vector3
deriving DecidableEq, Repr

/-- The ray constructor of the sources: direction is `stop - start`. -/
def mkRay (s t : vector3) : ray := ⟨s, t, t - s⟩

/-- Modelled from the spec: `Collision: parametric t along the ray, world
point, surface normal` (math/trace.h absent). -/
structure collision where
  param : ℚ
  point : vector3
  normal : vector3
deriving DecidableEq, Repr

/-- Stand-in for `BASE_INFINITY`: larger than every parametric value that
can arise on a ray (parameters of accepted hits lie in [0,1]). -/
def infParam : ℚ := 10 ^ 9

/-- Modelled from the spec: a default-constructed `collision`.  The traversal
overwrites consumed split planes with `BASE_INFINITY`, so the inactive
convention is an infinite parameter. -/
def collisionDefault : collision := ⟨infParam, 0, 0⟩

/-- Modelled from the spec: ray/plane intersection.  A hit requires a
non-parallel direction and a parameter inside the ray segment [0,1]. -/
def ray_intersect_plane (pl : plane) (s d : vector3) : Option collision :=
  let den := pl.x * d.x + pl.y * d.y + pl.z * d.z
  if den = 0 then none
  else
    let t := -(plane_distance pl s) / den
    if 0 ≤ t ∧ t ≤ 1 then some ⟨t, s + d * t, ⟨pl.x, pl.y, pl.z⟩⟩ else none

/-- `ray_intersect_plane` in the Bool-and-out-parameter calling convention
of the traversal: a miss leaves the out parameter default-constructed. -/
def ray_plane_b (pl : plane) (s d : vector3) : Bool × collision :=
  match ray_intersect_plane pl s d with
  | none => (false, collisionDefault)
  | some c => (true, c)

/-- Modelled from the spec: slab interval of one axis for the ray/AABB test;
`none` when the ray is parallel to the slab and outside it. -/
def slabAxis (lo hi s d : ℚ) : Option (ℚ × ℚ) :=
  if d = 0 then (if lo ≤ s ∧ s ≤ hi then some (-infParam, infParam) else none)
  else some (min ((lo - s) / d) ((hi - s) / d), max ((lo - s) / d) ((hi - s) / d))

/-- Modelled from the spec: ray/AABB intersection by the slab method.  The
reported parameter is the entry parameter clamped to the segment start, and
the reported point lies on the ray at that parameter. -/
def ray_intersect_bounds (bb : bounds) (r : ray) : Option collision :=
  match slabAxis bb.bounds_min.x bb.bounds_max.x r.start.x r.dir.x,
        slabAxis bb.bounds_min.y bb.bounds_max.y r.start.y r.dir.y,
        slabAxis bb.bounds_min.z bb.bounds_max.z r.start.z r.dir.z with
  | some (a1, b1), some (a2, b2), some (a3, b3) =>
      let tmin := max a1 (max a2 a3)
      let tmax := min b1 (min b2 b3)
      if tmin ≤ tmax ∧ 0 ≤ tmax ∧ tmin ≤ 1 then
        some ⟨max tmin 0, r.start + r.dir * max tmin 0, 0⟩
      else none
  | _, _, _ => none

/-- Modelled from the spec: `saturate` clamps a scalar to [0,1]. -/
def saturate (q : ℚ) : ℚ := max 0 (min 1 q)

/-!  Shared BVH node machinery (`BaseBvhNode`, src/source/bvh.h).  -/

/-- The AABB of child `i` created by `BaseBvhNode::ConfigureChildren`
(bvh.h): `node_min = min + half_x*(i%2) + half_y*(i>>2) + half_z*((i%4)>>1)`
and `node_max = node_min + node_span`, with the halves taken towards the
bounds center (`i >>> 2` and `(i % 4) >>> 1` are written `i / 4` and
`(i % 4) / 2`). -/
def childBounds (bb : bounds) (i : ℕ) : bounds :=
  let mn := bb.bounds_min
  let c := bb.query_center
  let half_x : vector3 := ⟨c.x - mn.x, 0, 0⟩
  let half_y : vector3 := ⟨0, c.y - mn.y, 0⟩
  let half_z : vector3 := ⟨0, 0, c.z - mn.z⟩
  let span := half_x + half_y + half_z
  let node_min := mn + half_x * ((i % 2 : ℕ) : ℚ) + half_y * ((i / 4 : ℕ) : ℚ)
      + half_z * (((i % 4) / 2 : ℕ) : ℚ)
  ⟨node_min, node_min + span⟩

/-- `BaseBvhNode::ClosestChild` (bvh.h): child index from the sign of the
offset to the bounds center, encoded `x_test | (z_test << 1) | (y_test << 2)`. -/
def closestChild (bb : bounds) (p : vector3) : ℕ :=
  let c := bb.query_center
  (if c.x ≤ p.x then 1 else 0) + 2 * (if c.z ≤ p.z then 1 else 0)
    + 4 * (if c.y ≤ p.y then 1 else 0)

/-- The three axis-aligned split planes through the bounds center installed
by `ConfigureChildren` (bvh.h): axis 0 is x, axis 1 is y, axis 2 is z. -/
def splitPlane (bb : bounds) (axis : ℕ) : plane :=
  let c := bb.query_center
  if axis = 0 then calculate_plane ⟨1, 0, 0⟩ c
  else if axis = 1 then calculate_plane ⟨0, 1, 0⟩ c
  else calculate_plane ⟨0, 0, 1⟩ c

/-!  Scene objects and `Scene::Trace` (src/source/object.cpp, object.h,
scene.cpp).  An object is its AABB together with its intrinsic ray test:
every concrete `Object::Trace` in object.cpp computes a candidate collision
independently of the incoming record and commits it only when its parameter
beats the current one; `coll` is that candidate, `tex` the texcoord map
applied on commit, and `matId` stands for the `surface_material` pointer. -/

/-- `ObjectCollision` (object.h); `surface_material` is modelled by a
numeric id, 0 denoting the null pointer of a default-constructed record. -/
structure ObjectCollision where
  param : ℚ
  point : vector3
  surface_normal : vector3
  surface_texcoords : vector2
  surface_material : ℕ
  is_internal : Bool
deriving DecidableEq, Repr

/-- The default-constructed `ObjectCollision` (object.cpp): parameter 2,
null material, not internal. -/
def ocolInit : ObjectCollision := ⟨2, 0, 0, 0, 0, false⟩

/-- A scene object as seen through the virtual `Object` interface. -/
structure Object where
  bb : bounds
  coll : ray → Option collision
  tex : collision → vector2
  matId : ℕ

/-- The object used when an index misses the object array; it collides with
nothing (the built trees only ever store valid indices). -/
def objNone : Object := ⟨⟨0, 0⟩, fun _ => none, fun _ => 0, 0⟩

/-- Index lookup into the scene's object list. -/
def objAt (objs : List Object) (i : ℕ) : Object := objs.getD i objNone

/-- The improvement wrapper every `Object::Trace` follows (object.cpp):
commit the candidate exactly when its parameter beats the current record;
`is_internal` is a field the object traces never touch. -/
def objTrace (o : Object) (r : ray) (h : ObjectCollision) :
    Bool × ObjectCollision :=
  match o.coll r with
  | none => (false, h)
  | some c =>
      if c.param < h.param then
        (true, ⟨c.param, c.point, c.normal, o.tex c, o.matId, h.is_internal⟩)
      else (false, h)

/-- The non-BVH path of `Scene::Trace` (scene.cpp lines 230-233): OR the
per-object trace results over the whole list, threading the hit record. -/
def linearSweep (objs : List Object) (r : ray) (h : ObjectCollision) :
    Bool × ObjectCollision :=
  objs.foldl
    (fun acc o =>
      let s := objTrace o r acc.2
      (acc.1 || s.1, s.2))
    (false, h)

/-!  The scene BVH (SceneBvhNode in scene.cpp plus the shared
`BaseBvhNode::TraceInternal` of bvh.h).  -/

/-- A scene-BVH node: bounds, leaf flag, payload object indices, children
(eight for an internal node, none for a leaf). -/
inductive SceneBvhNode where
  | mk (bb : bounds) (is_leaf : Bool) (objIdx : List ℕ)
      (children : List SceneBvhNode)

def SceneBvhNode.bb : SceneBvhNode → bounds
  | .mk b _ _ _ => b

def SceneBvhNode.is_leaf : SceneBvhNode → Bool
  | .mk _ l _ _ => l

def SceneBvhNode.objIdx : SceneBvhNode → List ℕ
  | .mk _ _ o _ => o

def SceneBvhNode.children : SceneBvhNode → List SceneBvhNode
  | .mk _ _ _ c => c

/-- `SceneBvhNode::Subdivide` (scene.cpp lines 33-74), written as a
recursive build from the node parameters.  The structural fuel equals
`max_tree_depth - depth` at every call, so fuel 0 is exactly the
`depth_ >= max_tree_depth_` early return.  The sparse-branch prune
`depth >= min(max_tree_depth - depth, log(N)/log(8) + 0.5 - 2)` is rendered
exactly: the float comparison `depth ≥ log₈ N − 1.5` holds iff
`N² ≤ 8^(2·depth+3)` (and holds for N = 0, where the C++ log is −∞). -/
def sceneBuildF (objs : List Object) (maxd : ℕ) :
    ℕ → ℕ → bounds → List ℕ → SceneBvhNode
  | 0, _, bb, idxs => .mk bb true idxs []
  | fuel + 1, depth, bb, idxs =>
      if maxd - depth ≤ depth ∨ idxs.length ^ 2 ≤ 8 ^ (2 * depth + 3) then
        .mk bb true idxs []
      else if 2 < idxs.length then
        .mk bb false []
          ((List.range 8).map fun i =>
            sceneBuildF objs maxd fuel (depth + 1) (childBounds bb i)
              (idxs.filter fun j =>
                bounds_intersect_bounds (objAt objs j).bb (childBounds bb i)))
      else .mk bb true idxs []

/-- `SceneBvh::BuildBvh` (scene.cpp lines 105-126): nothing is built for an
empty list; otherwise the root bounds are the union of all object bounds,
the root holds every index, and subdivision starts at depth 0. -/
def sceneBuildRoot (objs : List Object) (maxd : ℕ) : Option SceneBvhNode :=
  match objs with
  | [] => none
  | o :: rest =>
      let rootBB := rest.foldl (fun acc q => acc.union q.bb) o.bb
      some (sceneBuildF objs maxd maxd 0 rootBB (List.range objs.length))

/-- The per-leaf object scan of `SceneBvhNode::Trace` (scene.cpp lines
86-98): `temp_obj_hit` is declared once outside the loop and threads
through all object traces; the node record is overwritten whenever the
accumulated temporary beats it. -/
def leafScan (objs : List Object) (payload : List ℕ) (r : ray)
    (h : ObjectCollision) : Bool × ObjectCollision :=
  let out := payload.foldl
    (fun (acc : Bool × ObjectCollision × ObjectCollision) oi =>
      let s := objTrace (objAt objs oi) r acc.2.2
      if s.1 ∧ s.2.param < acc.2.1.param then (true, s.2, s.2)
      else (acc.1, acc.2.1, s.2))
    (false, h, ocolInit)
  (out.1, out.2.1)

/-- The loop state of `BaseBvhNode::TraceInternal` (bvh.h lines 154-231):
current child index, the three plane-hit flags and records, the advancing
internal ray start, the result latch and the hit record. -/
structure LoopSt where
  closest : ℕ
  xh : Bool
  yh : Bool
  zh : Bool
  xi : collision
  yi : collision
  zi : collision
  istart : vector3
  res : Bool
  hit : ObjectCollision

/-- A pending traversal task: either `SceneBvhNode::Trace` on a node, or an
iteration of the four-step loop of `TraceInternal` over the children of the
current node. -/
inductive TrTask where
  | node (n : SceneBvhNode) (h : ObjectCollision)
  | loop (cs : List SceneBvhNode) (bb : bounds) (iter : ℕ) (st : LoopSt)

/-- `SceneBvhNode::Trace` together with `BaseBvhNode::TraceInternal`,
driven by structural fuel over pending tasks (the fuel passed by
`sceneBvhTrace` exceeds every chain the built trees can produce; exhaustion
reports the state reached, which the soundness lemmas cover as well).

Node task (scene.cpp lines 76-103): miss the node AABB, or enter it beyond
the current best parameter, and fail; scan a leaf linearly; otherwise run
`TraceInternal`.  TraceInternal (bvh.h lines 154-231): when the ray starts
outside the node, restart the internal trajectory at the AABB entry point;
pick the closest child of the entry (or of the ray start), intersect the
three split planes, shortcut into the single closest child when the ray
starts inside and misses all planes, and otherwise loop at most four times:
trace the current child with the original trajectory, stop on a hit inside
that child, and step across whichever live split plane has the strictly
smallest parameter, XOR-ing that axis bit (x is bit 0, y bit 2, z bit 1)
and consuming the plane; ties fall through the strict comparison chain and
break the loop; leaving the node AABB breaks the loop. -/
def runTrace (objs : List Object) (r : ray) : ℕ → TrTask → Bool × ObjectCollision
  | 0, t =>
      match t with
      | .node _ h => (false, h)
      | .loop _ _ _ st => (st.res, st.hit)
  | fuel + 1, t =>
      match t with
      | .node n h =>
          match ray_intersect_bounds n.bb r with
          | none => (false, h)
          | some node_hit =>
              if h.param < node_hit.param then (false, h)
              else if n.is_leaf then leafScan objs n.objIdx r h
              else
                let p0 := splitPlane n.bb 0
                let p1 := splitPlane n.bb 1
                let p2 := splitPlane n.bb 2
                if point_in_bounds n.bb r.start then
                  let closest := closestChild n.bb r.start
                  let sx := ray_plane_b p0 r.start r.dir
                  let sy := ray_plane_b p1 r.start r.dir
                  let sz := ray_plane_b p2 r.start r.dir
                  if ¬sx.1 ∧ ¬sy.1 ∧ ¬sz.1 then
                    match n.children.get? closest with
                    | some c => runTrace objs r fuel (.node c h)
                    | none => (false, h)
                  else
                    runTrace objs r fuel (.loop n.children n.bb 4
                      ⟨closest, sx.1, sy.1, sz.1, sx.2, sy.2, sz.2,
                        r.start, false, h⟩)
                else
                  let closest := closestChild n.bb node_hit.point
                  let sx := ray_plane_b p0 node_hit.point r.dir
                  let sy := ray_plane_b p1 node_hit.point r.dir
                  let sz := ray_plane_b p2 node_hit.point r.dir
                  runTrace objs r fuel (.loop n.children n.bb 4
                    ⟨closest, sx.1, sy.1, sz.1, sx.2, sy.2, sz.2,
                      node_hit.point, false, h⟩)
      | .loop cs bb (iter + 1) st =>
          let step := fun (st : LoopSt) =>
            if st.xh ∧ st.xi.param < st.yi.param ∧ st.xi.param < st.zi.param then
              let st2 := { st with
                           closest := st.closest ^^^ 1, xh := false,
                           istart := st.xi.point,
                           xi := { st.xi with param := infParam } }
              if point_in_bounds bb st2.istart then
                runTrace objs r fuel (.loop cs bb iter st2)
              else (st2.res, st2.hit)
            else if st.yh ∧ st.yi.param < st.zi.param ∧ st.yi.param < st.xi.param then
              let st2 := { st with
                           closest := st.closest ^^^ 4, yh := false,
                           istart := st.yi.point,
                           yi := { st.yi with param := infParam } }
              if point_in_bounds bb st2.istart then
                runTrace objs r fuel (.loop cs bb iter st2)
              else (st2.res, st2.hit)
            else if st.zh ∧ st.zi.param < st.yi.param ∧ st.zi.param < st.xi.param then
              let st2 := { st with
                           closest := st.closest ^^^ 2, zh := false,
                           istart := st.zi.point,
                           zi := { st.zi with param := infParam } }
              if point_in_bounds bb st2.istart then
                runTrace objs r fuel (.loop cs bb iter st2)
              else (st2.res, st2.hit)
            else (st.res, st.hit)
          match cs.get? st.closest with
          | some c =>
              let s := runTrace objs r fuel (.node c st.hit)
              if s.1 then
                if point_in_bounds c.bb s.2.point then (true, s.2)
                else step { st with res := true, hit := s.2 }
              else step { st with hit := s.2 }
          | none => step st
      | .loop _ _ 0 st => (st.res, st.hit)

/-- `SceneBvh::Trace` (scene.cpp lines 128-133) over the tree built by
`BuildBvh` with the given maximum depth; the fuel bound dominates the
longest possible task chain of a tree of that depth. -/
def sceneBvhTrace (objs : List Object) (maxd : ℕ) (r : ray)
    (h : ObjectCollision) : Bool × ObjectCollision :=
  match sceneBuildRoot objs maxd with
  | none => (false, h)
  | some root => runTrace objs r (8 * (maxd + 2)) (.node root h)

/-- `Scene::Optimize`'s ideal depth (scene.cpp line 220):
`(log(N)/log(8) + 0.5) - 2` truncated to int.  For every N with a positive
value this equals the greatest k with `8^(2k+3) ≤ N²` (that inequality says
`depth + 1.5 ≤ log₈ N`); for N with a non-positive value (N² < 8³, or N = 0
where the C++ log is −∞) the result is 0 here while the C++ value may be 0
or negative — `Optimize` only ever tests `ideal_depth > 0`, on which the two
agree. -/
def idealDepth (n : ℕ) : ℤ :=
  if 8 ^ 3 ≤ n ^ 2 then
    (Nat.findGreatest (fun k => 8 ^ (2 * k + 3) ≤ n ^ 2) n : ℤ)
  else 0

/-- The back-facing adjustment at the end of `Scene::Trace` (scene.cpp lines
238-247): build the plane of the recorded normal through the recorded point;
a negative signed distance of the ray start inverts the normal and marks the
collision internal.  Applied unconditionally, also on a miss. -/
def backFaceAdjust (r : ray) (h : ObjectCollision) : ObjectCollision :=
  if plane_distance (calculate_plane h.surface_normal h.point) r.start < 0 then
    { h with surface_normal := -h.surface_normal, is_internal := true }
  else h

/-- `Scene::Trace` (scene.cpp lines 227-249) after `Optimize` (lines
216-225): traverse the scene BVH when `ideal_depth > 0` made the tree valid,
else sweep all objects linearly; then adjust back-facing hits. -/
def sceneTrace (objs : List Object) (r : ray) (h : ObjectCollision) :
    Bool × ObjectCollision :=
  let s :=
    if 0 < idealDepth objs.length then
      sceneBvhTrace objs (idealDepth objs.length).toNat r h
    else linearSweep objs r h
  (s.1, backFaceAdjust r s.2)

/-!  The mesh BVH (`MeshBvhNode`, src/source/mesh.cpp).  -/

/-- A mesh face as far as subdivision is concerned: its three vertex
indices (`MeshFace::vertex_indices`, mesh.h). -/
structure MeshFace where
  v0 : ℕ
  v1 : ℕ
  v2 : ℕ
deriving DecidableEq, Repr

/-- A mesh-BVH node: bounds, leaf flag, payload face indices, children. -/
inductive MeshBvhNode where
  | mk (bb : bounds) (is_leaf : Bool) (faceIdx : List ℕ)
      (children : List MeshBvhNode)

def MeshBvhNode.bb : MeshBvhNode → bounds
  | .mk b _ _ _ => b

def MeshBvhNode.is_leaf : MeshBvhNode → Bool
  | .mk _ l _ _ => l

def MeshBvhNode.faceIdx : MeshBvhNode → List ℕ
  | .mk _ _ f _ => f

def MeshBvhNode.children : MeshBvhNode → List MeshBvhNode
  | .mk _ _ _ c => c

/-- The triangle of face `j` of the mesh arrays. -/
def triOf (verts : List vector3) (faces : List MeshFace) (j : ℕ) :
    vector3 × vector3 × vector3 :=
  let f := faces.getD j ⟨0, 0, 0⟩
  (verts.getD f.v0 0, verts.getD f.v1 0, verts.getD f.v2 0)

/-- `MeshBvhNode::Subdivide` (mesh.cpp lines 39-76), as a recursive build
from the node parameters, parametric over the triangle/AABB overlap test
`tt` (`triangle_intersect_bounds` lives in the absent math/intersect.h).
The structural fuel equals `kMaxSubdivisionDepth - depth` at every call
(`kMaxSubdivisionDepth = 4`, mesh.cpp line 16), so fuel 0 is the
`depth_ >= kMaxSubdivisionDepth` early return.  A node keeps its faces
untouched unless it holds more than `kMaxFaceCountPerNode = 16` of them;
there is no volume test here.  On subdivision every face index goes to each
child whose AABB its triangle overlaps, the payload is cleared, the leaf
flag drops, and the children subdivide in turn. -/
def meshSubdivideF (tt : vector3 × vector3 × vector3 → bounds → Bool)
    (verts : List vector3) (faces : List MeshFace) :
    ℕ → ℕ → bounds → List ℕ → MeshBvhNode
  | 0, _, bb, idxs => .mk bb true idxs []
  | fuel + 1, depth, bb, idxs =>
      if idxs.length ≤ 16 then .mk bb true idxs []
      else
        .mk bb false []
          ((List.range 8).map fun i =>
            meshSubdivideF tt verts faces fuel (depth + 1) (childBounds bb i)
              (idxs.filter fun j => tt (triOf verts faces j) (childBounds bb i)))

/-- `MeshBvhNode::Subdivide` invoked on a node of the given depth. -/
def meshSubdivide (tt : vector3 × vector3 × vector3 → bounds → Bool)
    (verts : List vector3) (faces : List MeshFace) (depth : ℕ) (bb : bounds)
    (idxs : List ℕ) : MeshBvhNode :=
  meshSubdivideF tt verts faces (4 - depth) depth bb idxs

/-- The AABB of a triangle (componentwise extremes of its vertices). -/
def triBounds (t : vector3 × vector3 × vector3) : bounds :=
  ⟨⟨min t.1.x (min t.2.1.x t.2.2.x), min t.1.y (min t.2.1.y t.2.2.y),
    min t.1.z (min t.2.1.z t.2.2.z)⟩,
   ⟨max t.1.x (max t.2.1.x t.2.2.x), max t.1.y (max t.2.1.y t.2.2.y),
    max t.1.z (max t.2.1.z t.2.2.z)⟩⟩

/-- Modelled from the spec: `triangle_intersect_bounds` (math/intersect.h
absent); modelled conservatively as overlap of the triangle's AABB with the
box.  Structure theorems below are parametric in the test; only concrete
evaluations instantiate it. -/
def triIntersectBoundsM (t : vector3 × vector3 × vector3) (bb : bounds) :
    Bool :=
  bounds_intersect_bounds (triBounds t) bb

/-!  The first-bounce cache (`ImagePlaneCache`, src/source/engine.cpp lines
116-140, engine.h lines 104-122).  -/

/-- `ImagePlaneCache`, generic in the cached entry (the C++ class fixes it
to `ObjectCollision`): `collision_cache_` holds entries, the
`invalidation_cache_` flag vector "stores true if the given pixel is
cached" (engine.h line 117). -/
structure ImagePlaneCache (α : Type) where
  invalidation_cache : List Bool
  collision_cache : List α
  width : ℕ
  height : ℕ

/-- The `ImagePlaneCache` constructor (engine.cpp lines 116-122): both
vectors sized `width*height`, all flags false via `Invalidate`; entries are
default-constructed. -/
def mkImagePlaneCache (α : Type) (dflt : α) (w h : ℕ) : ImagePlaneCache α :=
  ⟨List.replicate (w * h) false, List.replicate (w * h) dflt, w, h⟩

/-- `ImagePlaneCache::Invalidate` (engine.cpp lines 124-128): clear every
flag. -/
def cacheInvalidate {α : Type} (c : ImagePlaneCache α) : ImagePlaneCache α :=
  { c with invalidation_cache :=
      List.replicate (c.width * c.height) false }

/-- `ImagePlaneCache::CacheCollision` (engine.cpp lines 130-133): store the
hit at `y*width + x`.  The invalidation flags are not touched. -/
def cacheCollision {α : Type} (c : ImagePlaneCache α) (hit : α) (x y : ℕ) :
    ImagePlaneCache α :=
  { c with collision_cache := c.collision_cache.set (y * c.width + x) hit }

/-- `ImagePlaneCache::FetchCollision` (engine.cpp lines 135-140): return
the entry only when the flag at `y*width + x` is set, else null (`none`
models the returned null pointer). -/
def fetchCollision {α : Type} (c : ImagePlaneCache α) (x y : ℕ) : Option α :=
  if c.invalidation_cache.getD (y * c.width + x) false then
    c.collision_cache.get? (y * c.width + x)
  else none

/-!  The integrator (`TraceStep`, src/source/engine.cpp lines 142-245).
Materials enter through the virtual contract of material.h; geometry that
needs square roots (normalize, distance, the sphere texcoord map) comes in
as an oracle, since none of the claims depend on its values. -/

/-- The virtual `Material` contract (material.h): indirect-use decision,
reflection direction, sample, and the instance id. -/
structure MaterialM where
  willUseIndirect : vector3 → vector3 → Bool
  reflection : vector3 → vector3 → Bool → vector3
  sample : ℕ → vector3 → vector3 → vector3 → vector3 → vector3 → vector3 →
      vector3 → vector2 → Bool → vector3
  matId : ℕ

/-- `LightMaterial` without a texture (material.cpp lines 28-53): never
uses indirect light, zero reflection, and samples to its emissive color
regardless of every other argument. -/
def lightMaterial (emissive : vector3) (mid : ℕ) : MaterialM :=
  ⟨fun _ _ => false, fun _ _ _ => 0,
   fun _ _ _ _ _ _ _ _ _ _ => emissive, mid⟩

/-- The `ObjectCollision` record as `TraceStep` consumes it: the surface
material is the full virtual interface here. -/
structure OColM where
  param : ℚ
  point : vector3
  normal : vector3
  texcoords : vector2
  material : MaterialM
  is_internal : Bool

/-- The `Camera` struct (engine.h lines 43-63). -/
structure Camera where
  z_near : ℚ
  z_far : ℚ
  origin : vector3
  target : vector3
  fov_y : ℚ
  aperture_size : ℚ
  focal_depth : ℚ
  fast_render_enabled : Bool

/-- The default `Camera` (engine.cpp lines 33-41) at a given origin and
target (engine.cpp lines 43-51). -/
def mkCamera (o t : vector3) : Camera :=
  ⟨1, 10000, o, t, 45, 3 / 2, 80, false⟩

/-- `TraceResult` (frame.h lines 40-47); color and normal default to zero
vectors, depth, material id and ray count to zero. -/
structure TraceResult where
  color : vector3
  normal : vector3
  depth : ℚ
  material_id : ℕ
  ray_count : ℕ
deriving DecidableEq, Repr

def traceResultInit : TraceResult := ⟨0, 0, 0, 0, 0⟩

/-- Modelled from the spec: the square-root-dependent geometry the
integrator calls (`normalize`, point distance, `sphere_map_texcoords`);
the claims hold for every oracle. -/
structure GeomOracle where
  normalizeV : vector3 → vector3
  distV : vector3 → vector3 → ℚ
  sphereUV : vector3 → vector2

/-- A scene as `TraceStep` sees it: the `Scene::Trace` entry (fed with a
default-constructed `ObjectCollision`, engine.cpp line 158) and the sky
material. -/
structure SceneM where
  trace : ray → OColM → Bool × OColM
  sky : MaterialM

/-- A default-constructed `OColM` (parameter 2, engine.cpp's
`ObjectCollision`), with an inert material standing for the null pointer. -/
def ocolMInit : OColM := ⟨2, 0, 0, 0, lightMaterial 0 0, false⟩

/-- `Scene::SampleSky` (engine.cpp lines 59-64, scene.cpp lines 157-162):
sample the sky material with zero vectors and the sphere texcoords of the
view direction, then triple the result. -/
def sampleSky (orc : GeomOracle) (sky : MaterialM) (depth : ℕ)
    (view : vector3) : vector3 :=
  sky.sample depth 0 0 view 0 0 0 0 (orc.sphereUV view) false * (3 : ℚ)

/-- `kTraceStepObjectOffset` (engine.cpp line 17). -/
def traceStepOffsetEps : ℚ := 3 / 100

/-- `TraceStep` (engine.cpp lines 142-240), by structural recursion on the
fuel `32 - depth` (`kMaximumTraceDepth = 32`): fuel 0 is exactly the
`depth >= kMaximumTraceDepth` black return.  Returns the output color, the
`*hit_position` write (zero when the code leaves the caller's
default-initialized vector untouched), the updated `TraceResult` and the
updated cache.  Order of effects follows the source: the fast-render early
white return precedes the `ray_count = depth + 1` write; at depth 0 a valid
cache entry short-circuits `Scene::Trace`; a scene miss returns the tripled
sky sample, recording color, normalized ray direction, sky material id and
`z_far` into the result at depth 0; on a primary hit the collision is
stored into the cache; the continuation ray starts at the hit point offset
by ε = 0.03 along the reflection and stops `z_far` along it; indirect light
is gathered recursively only when the material asks for it; the sample call
and the depth-0 result writes close the step. -/
def traceStepF (orc : GeomOracle) (cam : Camera) (scn : SceneM) :
    ℕ → ℕ → ray → ℕ → ℕ → Option (ImagePlaneCache OColM) → TraceResult →
    vector3 × vector3 × TraceResult × Option (ImagePlaneCache OColM)
  | 0, _, _, _, _, cache, res => (0, 0, res, cache)
  | fuel + 1, depth, r, x, y, cache, res =>
      if cam.fast_render_enabled ∧ 1 < depth then (⟨1, 1, 1⟩, 0, res, cache)
      else
        let res1 := { res with ray_count := depth + 1 }
        let afterHit := fun (col : OColM)
            (cache2 : Option (ImagePlaneCache OColM)) =>
          let view := orc.normalizeV (col.point - r.start)
          let refl := col.material.reflection view col.normal col.is_internal
          let rr : ray :=
            ⟨col.point + refl * traceStepOffsetEps,
             col.point + refl * cam.z_far,
             refl * cam.z_far - refl * traceStepOffsetEps⟩
          let ind :=
            if col.material.willUseIndirect refl col.normal then
              let s := traceStepF orc cam scn fuel (depth + 1) rr x y cache2 res1
              (s.2.1, s.1, s.2.2.1, s.2.2.2)
            else (0, 0, res1, cache2)
          let out := col.material.sample depth col.point r.start view ind.1
            refl ind.2.1 col.normal col.texcoords col.is_internal
          let res3 :=
            if depth = 0 then
              { ind.2.2.1 with
                color := out, normal := col.normal,
                material_id := col.material.matId,
                depth := orc.distV col.point r.start }
            else ind.2.2.1
          (out, col.point, res3, ind.2.2.2)
        let cached : Option OColM :=
          if depth = 0 then cache.bind fun c => fetchCollision c x y else none
        match cached with
        | some col => afterHit col cache
        | none =>
            let s := scn.trace r ocolMInit
            if s.1 then
              let cache2 :=
                if depth = 0 then
                  cache.map fun c => cacheCollision c s.2 x y
                else cache
              afterHit s.2 cache2
            else
              let out := sampleSky orc scn.sky depth
                (orc.normalizeV (r.stop - r.start))
              let res2 :=
                if depth = 0 then
                  { res1 with
                    color := out,
                    normal := orc.normalizeV r.dir,
                    material_id := scn.sky.matId, depth := cam.z_far }
                else res1
              (out, r.stop, res2, cache)

/-- `TraceStep` at a given depth (fuel `32 - depth` realizes the
`kMaximumTraceDepth` cutoff). -/
def traceStep (orc : GeomOracle) (cam : Camera) (scn : SceneM) (depth : ℕ)
    (r : ray) (x y : ℕ) (cache : Option (ImagePlaneCache OColM))
    (res : TraceResult) :
    vector3 × vector3 × TraceResult × Option (ImagePlaneCache OColM) :=
  traceStepF orc cam scn (32 - depth) depth r x y cache res

/-- `Scene::Trace` of an empty scene (engine.cpp lines 98-114): the object
loop is empty, and the back-facing check on the default-constructed record
(zero normal, zero point) gives signed distance 0, so nothing changes and
the result is a miss with the record returned as passed. -/
def emptySceneM (sky : MaterialM) : SceneM :=
  ⟨fun _ h => (false, h), sky⟩

/-!  The frame accumulator (`DisplayFrame`, src/source/frame.cpp).  -/

/-- `DisplayFrame`'s per-pixel buffers (frame.cpp lines 8-31), as functions
of the pixel coordinates; `Reset` zeroes every buffer (lines 43-51). -/
structure DisplayFrame where
  width : ℕ
  height : ℕ
  render_target : ℕ → ℕ → vector3
  count_buffer : ℕ → ℕ → ℕ
  normal_buffer : ℕ → ℕ → vector3
  depth_buffer : ℕ → ℕ → ℚ
  material_id_buffer : ℕ → ℕ → ℕ

/-- A freshly `Reset` frame. -/
def mkDisplayFrame (w h : ℕ) : DisplayFrame :=
  ⟨w, h, fun _ _ => 0, fun _ _ => 0, fun _ _ => 0, fun _ _ => 0, fun _ _ => 0⟩

/-- `DisplayFrame::WritePixel(vector3, x, y)` (frame.cpp lines 53-76):
fold the sample into the running mean `(mean·count + pixel)/(count+1)` and
bump the count.  (The 8-bit display write derived from the new mean is
`displayLevel` below.) -/
def writePixel (f : DisplayFrame) (pix : vector3) (x y : ℕ) : DisplayFrame :=
  let c := f.count_buffer x y
  let m := f.render_target x y
  let newPix : vector3 :=
    ⟨(m.x * c + pix.x) / (c + 1), (m.y * c + pix.y) / (c + 1),
     (m.z * c + pix.z) / (c + 1)⟩
  { f with
    render_target := fun a b =>
      if a = x ∧ b = y then newPix else f.render_target a b,
    count_buffer := fun a b =>
      if a = x ∧ b = y then c + 1 else f.count_buffer a b }

/-- `DisplayFrame::WritePixel(TraceResult, x, y)` (frame.cpp lines 78-85):
fold the color, then record normal, depth and material id. -/
def writePixelResult (f : DisplayFrame) (res : TraceResult) (x y : ℕ) :
    DisplayFrame :=
  let f1 := writePixel f res.color x y
  { f1 with
    normal_buffer := fun a b =>
      if a = x ∧ b = y then res.normal else f.normal_buffer a b,
    depth_buffer := fun a b =>
      if a = x ∧ b = y then res.depth else f.depth_buffer a b,
    material_id_buffer := fun a b =>
      if a = x ∧ b = y then res.material_id else f.material_id_buffer a b }

/-- The gamma-corrected 8-bit display value of one channel (frame.cpp lines
66-69): `255·saturate(m)^(1/2.2) + 0.5` truncated to an integer, with the
float `pow` modelled over the reals and the exponent `1/2.2 = 5/11`
exactly. -/
noncomputable def displayLevel (m : ℚ) : ℤ :=
  ⌊(255 : ℝ) * ((saturate m : ℚ) : ℝ) ^ ((5 : ℝ) / 11) + 1 / 2⌋

/-!  Scene-file material blocks (`Scene::ParseMaterial`, src/source/scene.cpp
lines 251-310).  -/

/-- The accumulated values of one material block at its closing brace
(initial values at scene.cpp lines 255-264). -/
structure MatDesc where
  color : vector3
  emission : vector3
  metallic : ℚ
  roughness : ℚ
  refraction_index : ℚ
  texture_scale : ℚ
  brdf : ℤ
  frostiness : ℚ
  reflectivity : ℚ
  texture_name : String
deriving DecidableEq, Repr

/-- The concrete material class picked at end-of-block. -/
inductive MatKind where
  | light (emission : vector3)
  | ceramic (color : vector3) (roughness : ℚ)
  | mirror (color : vector3)
  | metal (color : vector3) (metallic : ℚ)
  | liquid (color : vector3) (index reflectivity : ℚ)
  | glass (color : vector3) (index reflectivity frost : ℚ)
  | diffuse (color : vector3)
deriving DecidableEq, Repr

/-- The selection chain of `Scene::ParseMaterial` (scene.cpp lines
283-303): emission (any non-zero component, C++ float truthiness) wins,
then roughness, then metallic (exactly 1 makes a mirror), then brdf 1
(liquid) and 2 (glass), else diffuse. -/
def chooseMaterial (d : MatDesc) : MatKind :=
  if d.emission.x ≠ 0 ∨ d.emission.y ≠ 0 ∨ d.emission.z ≠ 0 then
    .light d.emission
  else if d.roughness ≠ 0 then .ceramic d.color d.roughness
  else if d.metallic ≠ 0 then
    if d.metallic = 1 then .mirror d.color
    else .metal d.color d.metallic
  else if d.brdf = 1 then .liquid d.color d.refraction_index d.reflectivity
  else if d.brdf = 2 then
    .glass d.color d.refraction_index d.reflectivity d.frostiness
  else .diffuse d.color

/-- The texture load guard of `Scene::ParseMaterial` (scene.cpp line 305):
`strlen(texture_name) && strcmp(texture_name, "None") != 0`. -/
def textureLoads (d : MatDesc) : Bool :=
  d.texture_name ≠ "" ∧ d.texture_name ≠ "None"

/-!  The process entry point (`main`, src/source/main.cpp lines 43-208).  -/

/-- What the entry point does as a function of its command line: main.cpp
never reads `argc`/`argv`; it prints the copyright banner, builds the
hard-coded dragon scene, runs the window loop, and returns 0 (on escape or
window close).  No usage text exists in the translation unit and no flag is
parsed, so every field below is independent of `argv`. -/
structure MainBehavior where
  printed : List String
  prints_usage : Bool
  scene_file : Option String
  width_arg : Option ℕ
  height_arg : Option ℕ
  exit_code : ℕ
deriving DecidableEq, Repr

/-- The observable startup behavior of `main` (main.cpp lines 43-208) on a
given command line. -/
def mainRun (_argv : List String) : MainBehavior :=
  ⟨["Copyright (c) 2006-2018 Joe Bertolami. All Right Reserved."],
   false, none, none, none, 0⟩

/-- Vertices of a small triangle for the mesh-BVH counterexample. -/
def c4verts : List vector3 := [⟨0, 0, 0⟩, ⟨1/100, 0, 0⟩, ⟨0, 1/100, 0⟩]

/-- Seventeen copies of that triangle, one more than the leaf capacity. -/
def c4faces : List MeshFace := List.replicate 17 ⟨0, 1, 2⟩

/-- A node box of volume 10⁻⁶, far below the deprecated `V_MIN = 0.001`. -/
def c4bb : bounds := ⟨⟨0, 0, 0⟩, ⟨1/100, 1/100, 1/100⟩⟩

/-- A sample cached entry for exercising the first-bounce cache. -/
def c2Hit : ObjectCollision := ⟨1 / 2, ⟨1, 2, 3⟩, ⟨0, 0, 1⟩, ⟨0, 0⟩, 7, false⟩

/-- A stale hit record with a unit normal, as the integrator might leave in
an `ObjectCollision` that is reused across `Scene::Trace` calls. -/
def c10Stale : ObjectCollision := ⟨2, ⟨0, 0, 5⟩, ⟨0, 0, 1⟩, ⟨0, 0⟩, 0, false⟩

/-- A probe ray starting at the origin. -/
def c10Ray : ray := mkRay ⟨0, 0, 0⟩ ⟨0, 0, 1⟩

/-- One pixel-write step at (x, y). -/
def writeStep (x y : ℕ) (f : DisplayFrame) (p : vector3) : DisplayFrame :=
  writePixel f p x y

/-- An inert geometry oracle for concrete evaluations. -/
def geomOracleId : GeomOracle := ⟨fun v => v, fun _ _ => 0, fun _ => 0⟩

/-- A fast-render camera at the origin. -/
def camFast : Camera := { mkCamera 0 0 with fast_render_enabled := true }

/-- The sky light of the empty-scene rendering scenario, emission
(0.2, 0.4, 0.6), with an arbitrary material id. -/
def c3sky : MaterialM := lightMaterial ⟨1/5, 2/5, 3/5⟩ 7

/-- The scenario camera at (0, 0, −10) looking at the origin. -/
def c3cam : Camera := mkCamera ⟨0, 0, -10⟩ ⟨0, 0, 0⟩

/-- The empty scene under that sky. -/
def c3scene : SceneM := emptySceneM c3sky

/-- One depth-0 integrator step of the scenario on a fresh cache slot. -/
def c3step (orc : GeomOracle) (r : ray) (x y : ℕ) (res : TraceResult) :
    vector3 × vector3 × TraceResult × Option (ImagePlaneCache OColM) :=
  traceStep orc c3cam c3scene 0 r x y none res

/-- The frame after writing that step's result into a fresh frame. -/
def c3frame (orc : GeomOracle) (r : ray) (x y : ℕ) (res : TraceResult)
    (w h : ℕ) : DisplayFrame :=
  writePixelResult (mkDisplayFrame w h) (c3step orc r x y res).2.2.1 x y

/-- The scenario's primary ray, camera origin toward the scene origin. -/
def c3Ray : ray := mkRay ⟨0, 0, -10⟩ ⟨0, 0, 0⟩

/-!  A concrete scene for the scene-BVH claims.  The objects are rectangular
plane patches in the style of `DiscObject::Trace` (object.cpp lines 71-86:
plane intersection, then an extent test around the origin before the
improvement commit); the commit itself is `objTrace`.  -/

/-- The intrinsic ray test of a rectangular plane patch: a plane hit inside
the rectangle spanned by `tdir`/`bdir` half-extents `hw`/`hh` around
`origin`. -/
def quadColl (origin tdir bdir : vector3) (hw hh : ℚ) (pl : plane)
    (r : ray) : Option collision :=
  match ray_intersect_plane pl r.start r.dir with
  | none => none
  | some c =>
      if |dot (c.point - origin) tdir| ≤ hw ∧ |dot (c.point - origin) bdir| ≤ hh
      then some c else none

/-- A tiny patch near the scene origin; the probe ray misses it. -/
def clutterObj : Object :=
  ⟨⟨⟨0, 0, 0⟩, ⟨1/10, 1/10, 1/10⟩⟩,
   quadColl ⟨1/20, 1/20, 1/20⟩ ⟨1, 0, 0⟩ ⟨0, 1, 0⟩ (1/20) (1/20)
     (calculate_plane ⟨0, 0, 1⟩ ⟨1/20, 1/20, 1/20⟩),
   fun _ => 0, 1⟩

/-- The only patch the probe ray hits, centered at (6, 2, 6). -/
def targetObj : Object :=
  ⟨⟨⟨5, 1, 59/10⟩, ⟨7, 3, 61/10⟩⟩,
   quadColl ⟨6, 2, 6⟩ ⟨1, 0, 0⟩ ⟨0, 1, 0⟩ 1 1
     (calculate_plane ⟨0, 0, 1⟩ ⟨6, 2, 6⟩),
   fun _ => 0, 2⟩

/-- A far-corner patch stretching the root bounds to (8, 8, 8). -/
def markerObj : Object :=
  ⟨⟨⟨79/10, 79/10, 79/10⟩, ⟨8, 8, 8⟩⟩,
   quadColl ⟨159/20, 159/20, 159/20⟩ ⟨1, 0, 0⟩ ⟨0, 1, 0⟩ (1/20) (1/20)
     (calculate_plane ⟨0, 0, 1⟩ ⟨159/20, 159/20, 159/20⟩),
   fun _ => 0, 3⟩

/-- 182 objects: enough clutter for `Optimize` to build the BVH
(`ideal_depth = 1`), plus the target and the bounds marker. -/
def c1Objs : List Object :=
  List.replicate 180 clutterObj ++ [targetObj, markerObj]

/-- The probe ray, entering the root box at (0, 2, 0) and hitting the
target plane-patch at parameter 5/8. -/
def c1Ray : ray := mkRay ⟨-4, 2, -4⟩ ⟨12, 2, 12⟩

/-- The root AABB the build computes for `c1Objs`. -/
def c1RootBB : bounds := ⟨⟨0, 0, 0⟩, ⟨8, 8, 8⟩⟩

/-- The payload filter of octant `i` of the root, as the build creates it. -/
def c1filt (i : ℕ) : List ℕ :=
  (List.range 182).filter fun j =>
    bounds_intersect_bounds (objAt c1Objs j).bb (childBounds c1RootBB i)

/-- The eight depth-1 leaves of the built scene BVH. -/
def c1Children : List SceneBvhNode :=
  (List.range 8).map fun i => .mk (childBounds c1RootBB i) true (c1filt i) []

/-- The root the build produces for `c1Objs` at maximum depth 1. -/
def c1Root : SceneBvhNode := .mk c1RootBB false [] c1Children

/-- The fold step of `linearSweep`, named for the sweep lemmas. -/
def linStep (r : ray) (acc : Bool × ObjectCollision) (o : Object) :
    Bool × ObjectCollision :=
  let s := objTrace o r acc.2
  (acc.1 || s.1, s.2)

/-- The fold step of `leafScan`, named for the soundness lemmas. -/
def leafStep (objs : List Object) (r : ray)
    (acc : Bool × ObjectCollision × ObjectCollision) (oi : ℕ) :
    Bool × ObjectCollision × ObjectCollision :=
  let s := objTrace (objAt objs oi) r acc.2.2
  if s.1 ∧ s.2.param < acc.2.1.param then (true, s.2, s.2)
  else (acc.1, acc.2.1, s.2)

/-- A hit record whose parameter is the parameter of some object's actual
plane-test candidate on this ray. -/
def IsCand (objs : List Object) (r : ray) (h : ObjectCollision) : Prop :=
  ∃ o ∈ objs, ∃ c, o.coll r = some c ∧ h.param = c.param

/-- Soundness of a traversal outcome relative to the record it started
from: a reported miss leaves the record untouched, and a reported hit is a
genuine object candidate that beats the starting parameter. -/
def Sound (objs : List Object) (r : ray) (h0 : ObjectCollision)
    (out : Bool × ObjectCollision) : Prop :=
  (out.1 = false → out.2 = h0) ∧
  (out.1 = true → IsCand objs r out.2 ∧ out.2.param < h0.param)

/-!  Theorems.  -/

@[simp] theorem vadd_x (a b : vector3) : (a + b).x = a.x + b.x := rfl

@[simp] theorem vadd_y (a b : vector3) : (a + b).y = a.y + b.y := rfl

@[simp] theorem vadd_z (a b : vector3) : (a + b).z = a.z + b.z := rfl

@[simp] theorem vsub_x (a b : vector3) : (a - b).x = a.x - b.x := rfl

@[simp] theorem vsub_y (a b : vector3) : (a - b).y = a.y - b.y := rfl

@[simp] theorem vsub_z (a b : vector3) : (a - b).z = a.z - b.z := rfl

@[simp] theorem vneg_x (a : vector3) : (-a).x = -a.x := rfl

@[simp] theorem vneg_y (a : vector3) : (-a).y = -a.y := rfl

@[simp] theorem vneg_z (a : vector3) : (-a).z = -a.z := rfl

@[simp] theorem vmul_x (a b : vector3) : (a * b).x = a.x * b.x := rfl

@[simp] theorem vmul_y (a b : vector3) : (a * b).y = a.y * b.y := rfl

@[simp] theorem vmul_z (a b : vector3) : (a * b).z = a.z * b.z := rfl

@[simp] theorem vsmul_x (a : vector3) (q : ℚ) : (a * q).x = a.x * q := rfl

@[simp] theorem vsmul_y (a : vector3) (q : ℚ) : (a * q).y = a.y * q := rfl

@[simp] theorem vsmul_z (a : vector3) (q : ℚ) : (a * q).z = a.z * q := rfl

@[simp] theorem vzero_x : (0 : vector3).x = 0 := rfl

@[simp] theorem vzero_y : (0 : vector3).y = 0 := rfl

@[simp] theorem vzero_z : (0 : vector3).z = 0 := rfl

/-- C2: the claim says that after `CacheCollision(h, x, y)` with no
intervening `Invalidate`, `FetchCollision(x, y)` returns the cached entry,
so depth-0 `TraceStep` reuses it.  The code never sets the invalidation
flag in `CacheCollision`, so `FetchCollision` returns null forever — on a
4×4 cache, caching `c2Hit` at (1,2) leaves the flags all false, the fetch
returns null, and the fetch result is not the cached entry the claim
promises. -/
theorem c2_fetch_after_cache_is_null :
    fetchCollision
        (cacheCollision (mkImagePlaneCache ObjectCollision ocolInit 4 4)
          c2Hit 1 2) 1 2 = none ∧
    (cacheCollision (mkImagePlaneCache ObjectCollision ocolInit 4 4)
        c2Hit 1 2).invalidation_cache = List.replicate 16 false ∧
    (cacheCollision (mkImagePlaneCache ObjectCollision ocolInit 4 4)
        c2Hit 1 2).collision_cache.get? (2 * 4 + 1) = some c2Hit := by
  decide

/-- C9 counterexample: the claim says the entry point accepts `--file`
(required), `--width`, `--height`, and prints usage and exits 0 when
`--file` is missing.  `main` never reads its command line: with no
arguments no usage is printed, and `--file scene.txt` parses no scene
file. -/
theorem c9_counterexample :
    (mainRun []).prints_usage = false ∧
    (mainRun ["--file", "scene.txt"]).scene_file = none ∧
    (mainRun ["--width", "640"]).width_arg = none ∧
    (mainRun ["--height", "480"]).height_arg = none := by
  exact ⟨rfl, rfl, rfl, rfl⟩

/-- C9 amended: the entry point ignores its command line entirely — its
behavior is the same for every argument vector, it never prints usage, and
its exit code is 0. -/
theorem c9_main_ignores_argv (argv : List String) :
    mainRun argv = mainRun [] ∧ (mainRun argv).exit_code = 0 ∧
      (mainRun argv).prints_usage = false :=
  ⟨rfl, rfl, rfl⟩

/-- C10: `Scene::Trace` applies the back-facing adjustment to the hit
record even when no object was hit: on the empty scene every trace misses
yet returns the record with the adjustment applied, and with the stale
record `c10Stale` (normal (0,0,1) through (0,0,5)) and a ray starting at
the origin the miss comes back with the normal inverted and
`is_internal = true`. -/
theorem c10_backface_applied_on_miss :
    (∀ (r : ray) (h : ObjectCollision),
      sceneTrace [] r h = (false, backFaceAdjust r h)) ∧
    sceneTrace [] c10Ray c10Stale =
      (false, ⟨2, ⟨0, 0, 5⟩, ⟨0, 0, -1⟩, ⟨0, 0⟩, 0, true⟩) := by
  refine ⟨fun r h => rfl, by decide⟩

/-- C8: the selection priority of `Scene::ParseMaterial` — emission (any
component non-zero) gives Light; else non-zero roughness gives Ceramic;
else non-zero metallic gives Mirror when exactly 1 and Metal otherwise;
else brdf 1 gives Liquid, brdf 2 gives Glass, and anything else Diffuse;
and a texture loads exactly when its name is non-empty and differs from
the literal "None". -/
theorem c8_material_selection (d : MatDesc) :
    (chooseMaterial d = .light d.emission ↔
      (d.emission.x ≠ 0 ∨ d.emission.y ≠ 0 ∨ d.emission.z ≠ 0)) ∧
    (chooseMaterial d = .ceramic d.color d.roughness ↔
      (¬(d.emission.x ≠ 0 ∨ d.emission.y ≠ 0 ∨ d.emission.z ≠ 0) ∧
        d.roughness ≠ 0)) ∧
    (chooseMaterial d = .mirror d.color ↔
      (¬(d.emission.x ≠ 0 ∨ d.emission.y ≠ 0 ∨ d.emission.z ≠ 0) ∧
        d.roughness = 0 ∧ d.metallic = 1)) ∧
    (chooseMaterial d = .metal d.color d.metallic ↔
      (¬(d.emission.x ≠ 0 ∨ d.emission.y ≠ 0 ∨ d.emission.z ≠ 0) ∧
        d.roughness = 0 ∧ d.metallic ≠ 0 ∧ d.metallic ≠ 1)) ∧
    (chooseMaterial d = .liquid d.color d.refraction_index d.reflectivity ↔
      (¬(d.emission.x ≠ 0 ∨ d.emission.y ≠ 0 ∨ d.emission.z ≠ 0) ∧
        d.roughness = 0 ∧ d.metallic = 0 ∧ d.brdf = 1)) ∧
    (chooseMaterial d =
        .glass d.color d.refraction_index d.reflectivity d.frostiness ↔
      (¬(d.emission.x ≠ 0 ∨ d.emission.y ≠ 0 ∨ d.emission.z ≠ 0) ∧
        d.roughness = 0 ∧ d.metallic = 0 ∧ d.brdf ≠ 1 ∧ d.brdf = 2)) ∧
    (chooseMaterial d = .diffuse d.color ↔
      (¬(d.emission.x ≠ 0 ∨ d.emission.y ≠ 0 ∨ d.emission.z ≠ 0) ∧
        d.roughness = 0 ∧ d.metallic = 0 ∧ d.brdf ≠ 1 ∧ d.brdf ≠ 2)) ∧
    (textureLoads d = true ↔
      (d.texture_name ≠ "" ∧ d.texture_name ≠ "None")) := by
  unfold chooseMaterial textureLoads
  split_ifs with h1 h2 h3 h4 h5 h6 <;> simp_all

/-- Each child box of `ConfigureChildren` sits inside the parent. -/
theorem childBounds_subset (bb : bounds) (hv : bb.valid) (i : ℕ) (hi : i < 8)
    (p : vector3) (hp : point_in_bounds (childBounds bb i) p = true) :
    point_in_bounds bb p = true := by
  obtain ⟨v1, v2, v3⟩ := hv
  interval_cases i <;>
    simp [childBounds, point_in_bounds, bounds.query_center] at hp ⊢ <;>
    obtain ⟨h1, h2, h3, h4, h5, h6⟩ := hp <;>
    refine ⟨by linarith, by linarith, by linarith, by linarith, by linarith,
      by linarith⟩

/-- The child picked by `ClosestChild` contains every point of the parent
that selected it. -/
theorem closestChild_mem (bb : bounds) (hv : bb.valid) (p : vector3)
    (hp : point_in_bounds bb p = true) :
    closestChild bb p < 8 ∧
      point_in_bounds (childBounds bb (closestChild bb p)) p = true := by
  obtain ⟨v1, v2, v3⟩ := hv
  simp only [point_in_bounds, decide_eq_true_eq] at hp
  obtain ⟨h1, h2, h3, h4, h5, h6⟩ := hp
  by_cases hx : bb.query_center.x ≤ p.x <;>
    by_cases hy : bb.query_center.y ≤ p.y <;>
    by_cases hz : bb.query_center.z ≤ p.z <;>
    simp only [closestChild, hx, hy, hz, if_true, if_false, ite_true,
      ite_false] <;>
    simp only [bounds.query_center] at hx hy hz <;>
    norm_num <;>
    simp [childBounds, point_in_bounds, bounds.query_center] <;>
    refine ⟨by linarith, by linarith, by linarith, by linarith, by linarith,
      by linarith⟩

set_option maxHeartbeats 3200000 in
/-- C6: for every valid node bounds the eight `ConfigureChildren` boxes
tile the parent in octants — every point of the parent lies in the child
`ClosestChild` computes for it (the encoding `bit0 = x ≥ cx`,
`bit1 = z ≥ cz`, `bit2 = y ≥ cy` about the bounds center), a point lies in
the parent iff it lies in some child, each child is contained in the
parent, and two distinct children share no interior point. -/
theorem c6_octant_tiling (bb : bounds) (hv : bb.valid) :
    (∀ p, point_in_bounds bb p = true →
      closestChild bb p < 8 ∧
        point_in_bounds (childBounds bb (closestChild bb p)) p = true) ∧
    (∀ p, point_in_bounds bb p = true ↔
      ∃ i, i < 8 ∧ point_in_bounds (childBounds bb i) p = true) ∧
    (∀ i j, i < 8 → j < 8 → i ≠ j → ∀ p,
      ¬((childBounds bb i).inside_open p ∧ (childBounds bb j).inside_open p)) := by
  obtain ⟨v1, v2, v3⟩ := hv
  refine ⟨fun p hp => closestChild_mem bb ⟨v1, v2, v3⟩ p hp,
    fun p => ⟨fun hp => ?_, fun ⟨i, hi, hp⟩ =>
      childBounds_subset bb ⟨v1, v2, v3⟩ i hi p hp⟩, ?_⟩
  · obtain ⟨hlt, hmem⟩ := closestChild_mem bb ⟨v1, v2, v3⟩ p hp
    exact ⟨closestChild bb p, hlt, hmem⟩
  · intro i j hi hj hij p hp
    obtain ⟨hpi, hpj⟩ := hp
    interval_cases i <;> interval_cases j <;>
      first
      | exact hij rfl
      | (simp [childBounds, bounds.inside_open, bounds.query_center]
           at hpi hpj
         obtain ⟨a1, a2, a3, a4, a5, a6⟩ := hpi
         obtain ⟨b1, b2, b3, b4, b5, b6⟩ := hpj
         linarith)

/-- Witness for C6 at the box [0,2]³ and point (1/2, 1, 3/2). -/
theorem c6_octant_tiling_witness :
    (bounds.mk ⟨0, 0, 0⟩ ⟨2, 2, 2⟩).valid ∧
      (closestChild ⟨⟨0, 0, 0⟩, ⟨2, 2, 2⟩⟩ ⟨1 / 2, 1, 3 / 2⟩ < 8 ∧
        point_in_bounds
          (childBounds ⟨⟨0, 0, 0⟩, ⟨2, 2, 2⟩⟩
            (closestChild ⟨⟨0, 0, 0⟩, ⟨2, 2, 2⟩⟩ ⟨1 / 2, 1, 3 / 2⟩))
          ⟨1 / 2, 1, 3 / 2⟩ = true) :=
  ⟨by decide,
   (c6_octant_tiling ⟨⟨0, 0, 0⟩, ⟨2, 2, 2⟩⟩ (by decide)).1
     ⟨1 / 2, 1, 3 / 2⟩ (by decide)⟩

theorem writeStep_count (x y : ℕ) (cs : List vector3) (f : DisplayFrame) :
    (cs.foldl (writeStep x y) f).count_buffer x y =
      f.count_buffer x y + cs.length := by
  induction cs generalizing f with
  | nil => simp
  | cons c rest ih =>
      simp only [List.foldl_cons, ih, List.length_cons]
      simp [writeStep, writePixel]
      omega

theorem write_const_keeps (x y : ℕ) (c : vector3) :
    ∀ (n : ℕ) (f : DisplayFrame), f.render_target x y = c →
      ((List.replicate n c).foldl (writeStep x y) f).render_target x y = c := by
  intro n
  induction n with
  | zero => intro f hf; simpa using hf
  | succ k ih =>
      intro f hf
      rw [List.replicate_succ, List.foldl_cons]
      apply ih
      obtain ⟨cx, cy, cz⟩ := c
      have hne : ((f.count_buffer x y : ℚ) + 1) ≠ 0 := by positivity
      simp [writeStep, writePixel, hf]
      refine ⟨?_, ?_, ?_⟩ <;> (field_simp; ring)

/-- C7: for every pixel and every sequence of `WritePixel` calls at it, the
count buffer holds the number of writes; and after n ≥ 1 writes of the same
color c, the stored running mean is exactly c (exact rational arithmetic of
the update `mean' = (mean·count + sample)/(count + 1)`). -/
theorem c7_accumulator (w h x y : ℕ) (_hx : x < w) (_hy : y < h)
    (cs : List vector3) (c : vector3) (n : ℕ) :
    ((cs.foldl (writeStep x y) (mkDisplayFrame w h)).count_buffer x y =
      cs.length) ∧
    (1 ≤ n →
      ((List.replicate n c).foldl (writeStep x y)
          (mkDisplayFrame w h)).render_target x y = c) := by
  constructor
  · rw [writeStep_count]
    simp [mkDisplayFrame]
  · intro hn
    obtain ⟨k, rfl⟩ : ∃ k, n = k + 1 := ⟨n - 1, by omega⟩
    rw [List.replicate_succ, List.foldl_cons]
    apply write_const_keeps
    obtain ⟨cx, cy, cz⟩ := c
    simp [writeStep, writePixel, mkDisplayFrame]

/-- Witness for C7: two writes of (1/2, 1/3, 1/4) into a 2×2 frame at
pixel (1, 0) leave count 2 and mean (1/2, 1/3, 1/4). -/
theorem c7_accumulator_witness :
    (1 < 2 ∧ 0 < 2) ∧
    ((List.replicate 2 (⟨1 / 2, 1 / 3, 1 / 4⟩ : vector3)).foldl
        (writeStep 1 0) (mkDisplayFrame 2 2)).count_buffer 1 0 = 2 ∧
    ((List.replicate 2 (⟨1 / 2, 1 / 3, 1 / 4⟩ : vector3)).foldl
        (writeStep 1 0) (mkDisplayFrame 2 2)).render_target 1 0 =
      ⟨1 / 2, 1 / 3, 1 / 4⟩ := by
  refine ⟨⟨by decide, by decide⟩, ?_, ?_⟩
  · have h := c7_accumulator 2 2 1 0 (by decide) (by decide)
      (List.replicate 2 ⟨1 / 2, 1 / 3, 1 / 4⟩) ⟨1 / 2, 1 / 3, 1 / 4⟩ 2
    simpa using h.1
  · exact (c7_accumulator 2 2 1 0 (by decide) (by decide) []
      ⟨1 / 2, 1 / 3, 1 / 4⟩ 2).2 (by decide)

/-- With fast render on, any call beyond depth 1 returns without touching
the result or the cache, at every fuel (the fuel-0 black return included). -/
theorem traceStepF_deep_untouched (orc : GeomOracle) (cam : Camera)
    (scn : SceneM) (fuel depth : ℕ) (r : ray) (x y : ℕ)
    (cache : Option (ImagePlaneCache OColM)) (res : TraceResult)
    (hf : cam.fast_render_enabled = true) (hd : 1 < depth) :
    (traceStepF orc cam scn fuel depth r x y cache res).2.2 = (res, cache) := by
  cases fuel with
  | zero => rfl
  | succ k => simp [traceStepF, hf, hd]

/-- With fast render on, every call leaves `ray_count` either untouched or
at most 2; a call with fuel and depth at most 1 always leaves it at most 2. -/
theorem traceStepF_ray_count (orc : GeomOracle) (cam : Camera) (scn : SceneM)
    (hf : cam.fast_render_enabled = true) :
    ∀ (fuel depth : ℕ) (r : ray) (x y : ℕ)
      (cache : Option (ImagePlaneCache OColM)) (res : TraceResult),
      ((1 ≤ fuel ∧ depth ≤ 1) →
        (traceStepF orc cam scn fuel depth r x y cache res).2.2.1.ray_count ≤ 2) ∧
      ((traceStepF orc cam scn fuel depth r x y cache res).2.2.1.ray_count =
          res.ray_count ∨
        (traceStepF orc cam scn fuel depth r x y cache res).2.2.1.ray_count ≤ 2) := by
  intro fuel
  induction fuel with
  | zero =>
      intro depth r x y cache res
      exact ⟨fun h => absurd h.1 (by omega), Or.inl rfl⟩
  | succ fuel ih =>
      intro depth r x y cache res
      by_cases hd : 1 < depth
      · refine ⟨fun h => by omega, ?_⟩
        simp [traceStepF, hf, hd]
      · have hin1 : ∀ (r2 : ray) (c2 : Option (ImagePlaneCache OColM)),
            (traceStepF orc cam scn fuel 1 r2 x y c2
              { res with ray_count := 1 }).2.2.1.ray_count ≤ 2 := by
          intro r2 c2
          rcases (ih 1 r2 x y c2 { res with ray_count := 1 }).2 with h | h
          · simp only [h]; omega
          · exact h
        have hin2 : ∀ (r2 : ray) (c2 : Option (ImagePlaneCache OColM)),
            (traceStepF orc cam scn fuel 2 r2 x y c2
              { res with ray_count := 2 }).2.2.1.ray_count ≤ 2 := by
          intro r2 c2
          rcases (ih 2 r2 x y c2 { res with ray_count := 2 }).2 with h | h
          · simp only [h]; omega
          · exact h
        have key :
            (traceStepF orc cam scn (fuel + 1) depth r x y cache res).2.2.1.ray_count ≤ 2 := by
          interval_cases depth
          · simp only [traceStepF, hf]
            norm_num
            rcases hc : (cache.bind fun c => fetchCollision c x y) with _ | col
            all_goals simp only [hc]
            · rcases hs : scn.trace r ocolMInit with ⟨b, scol⟩
              cases b with
              | false => simp
              | true =>
                  simp only [if_true]
                  split_ifs with hw
                  · simp only [hw, if_true]
                    exact hin1 _ _
                  · simp
            · split_ifs with hw
              · simp only [hw, if_true]
                exact hin1 _ _
              · simp
          · simp only [traceStepF, hf]
            norm_num
            rcases hs : scn.trace r ocolMInit with ⟨b, scol⟩
            all_goals simp only [hs]
            cases b with
            | false => simp
            | true =>
                simp only [if_true]
                split_ifs with hw
                · simp only [hw, if_true]
                  exact hin2 _ _
                · simp
        exact ⟨fun _ => key, Or.inr key⟩

/-- C5 amended: with `fast_render_enabled`, every `TraceStep` call at a
depth strictly between 1 and the 32-deep recursion cutoff returns white
(1,1,1) without tracing — result and cache unchanged, no hit position
written — and the final result of a depth-0 sample has `ray_count ≤ 2`
(the source returns black, not white, once depth reaches 32). -/
theorem c5_fast_render (orc : GeomOracle) (cam : Camera) (scn : SceneM)
    (depth : ℕ) (r : ray) (x y : ℕ)
    (cache : Option (ImagePlaneCache OColM)) (res : TraceResult)
    (hf : cam.fast_render_enabled = true) :
    (1 < depth → depth < 32 →
      traceStep orc cam scn depth r x y cache res =
        (⟨1, 1, 1⟩, 0, res, cache)) ∧
    (traceStep orc cam scn 0 r x y cache res).2.2.1.ray_count ≤ 2 := by
  constructor
  · intro h1 h2
    unfold traceStep
    obtain ⟨k, hk⟩ : ∃ k, 32 - depth = k + 1 := ⟨31 - depth, by omega⟩
    rw [hk]
    simp [traceStepF, hf, h1]
  · unfold traceStep
    exact (traceStepF_ray_count orc cam scn hf (32 - 0) 0 r x y cache res).1
      ⟨by omega, by omega⟩

/-- C5 counterexample: the claim says every `TraceStep` call with depth > 1
returns white under fast render; at depth 32 (still > 1) the depth cutoff
fires first and the call returns black. -/
theorem c5_counterexample :
    camFast.fast_render_enabled = true ∧ 1 < 32 ∧
    (traceStep geomOracleId camFast (emptySceneM (lightMaterial ⟨1, 1, 1⟩ 5))
        32 c10Ray 0 0 none traceResultInit).1 = (0 : vector3) ∧
    (0 : vector3) ≠ (⟨1, 1, 1⟩ : vector3) := by
  refine ⟨rfl, by norm_num, rfl, by decide⟩

/-- Witness for C5 at depth 5 and a depth-0 sample on the empty scene. -/
theorem c5_fast_render_witness :
    camFast.fast_render_enabled = true ∧ (1 < 5 ∧ 5 < 32) ∧
    traceStep geomOracleId camFast (emptySceneM (lightMaterial ⟨1, 1, 1⟩ 5))
        5 c10Ray 0 0 none traceResultInit =
      (⟨1, 1, 1⟩, 0, traceResultInit, none) ∧
    (traceStep geomOracleId camFast (emptySceneM (lightMaterial ⟨1, 1, 1⟩ 5))
        0 c10Ray 0 0 none traceResultInit).2.2.1.ray_count ≤ 2 := by
  have h := c5_fast_render geomOracleId camFast
    (emptySceneM (lightMaterial ⟨1, 1, 1⟩ 5)) 5 c10Ray 0 0 none
    traceResultInit rfl
  have h0 := c5_fast_render geomOracleId camFast
    (emptySceneM (lightMaterial ⟨1, 1, 1⟩ 5)) 0 c10Ray 0 0 none
    traceResultInit rfl
  exact ⟨rfl, ⟨by norm_num, by norm_num⟩,
    h.1 (by norm_num) (by norm_num), h0.2⟩

/-- C4 amended: `MeshBvhNode::Subdivide` leaves the node an untouched leaf
exactly when its depth is at least 4 or it holds at most 16 faces — the
volume floor the claim names does not exist in the mesh subdivision —
and otherwise it clears its payload, drops the leaf flag, and hands every
face index to each of the eight octant children whose box the triangle
overlaps, the children subdividing in turn at depth + 1. -/
theorem c4_mesh_subdivide (tt : vector3 × vector3 × vector3 → bounds → Bool)
    (verts : List vector3) (faces : List MeshFace) (depth : ℕ) (bb : bounds)
    (idxs : List ℕ) :
    (meshSubdivide tt verts faces depth bb idxs = .mk bb true idxs [] ↔
      4 ≤ depth ∨ idxs.length ≤ 16) ∧
    (4 ≤ depth ∨ idxs.length ≤ 16 ∨
      meshSubdivide tt verts faces depth bb idxs =
        .mk bb false []
          ((List.range 8).map fun i =>
            meshSubdivide tt verts faces (depth + 1) (childBounds bb i)
              (idxs.filter fun j =>
                tt (triOf verts faces j) (childBounds bb i)))) := by
  unfold meshSubdivide
  by_cases h4 : 4 ≤ depth
  · have h0 : 4 - depth = 0 := by omega
    rw [h0]
    exact ⟨by simp [meshSubdivideF, h4], Or.inl h4⟩
  · obtain ⟨k, hk⟩ : ∃ k, 4 - depth = k + 1 := ⟨3 - depth, by omega⟩
    have hk2 : 4 - (depth + 1) = k := by omega
    rw [hk, hk2]
    by_cases h16 : idxs.length ≤ 16
    · exact ⟨by simp [meshSubdivideF, h16], Or.inr (Or.inl h16)⟩
    · constructor
      · simp [meshSubdivideF, h16, h4]
      · exact Or.inr (Or.inr (by simp [meshSubdivideF, h16]))

/-- C4 counterexample: a depth-0 node with 17 faces and volume 10⁻⁶ — at
most the claimed `V_MIN = 0.001`, so the claim says it stays a leaf — is
subdivided by the code, which never checks the volume. -/
theorem c4_counterexample :
    (0 : ℕ) < 4 ∧ 16 < (List.range 17).length ∧
    c4bb.query_volume ≤ 1 / 1000 ∧
    (meshSubdivide triIntersectBoundsM c4verts c4faces 0 c4bb
      (List.range 17)).is_leaf = false := by
  exact ⟨by decide, by decide, by decide, rfl⟩

/-- A depth-0 step of the empty-sky scenario: miss, tripled sky sample
(0.6, 1.2, 1.8), sky material id and `z_far` recorded. -/
theorem c3step_eq (orc : GeomOracle) (r : ray) (x y : ℕ)
    (res : TraceResult) :
    c3step orc r x y res =
      (⟨3/5, 6/5, 9/5⟩, r.stop,
       { res with color := ⟨3/5, 6/5, 9/5⟩,
                  normal := orc.normalizeV r.dir,
                  depth := 10000,
                  material_id := 7,
                  ray_count := 1 }, none) := by
  unfold c3step traceStep
  show traceStepF orc c3cam c3scene (31+1) 0 r x y none res = _
  simp [traceStepF, c3cam, c3scene, c3sky, mkCamera, emptySceneM, sampleSky,
    lightMaterial]
  rfl

/-- The fresh frame after one scenario sample holds the tripled sky color
and `z_far` in the written pixel. -/
theorem c3frame_vals (orc : GeomOracle) (r : ray) (x y w h : ℕ)
    (res : TraceResult) :
    (c3frame orc r x y res w h).render_target x y = ⟨3/5, 6/5, 9/5⟩ ∧
    (c3frame orc r x y res w h).depth_buffer x y = 10000 := by
  constructor
  · simp [c3frame, writePixelResult, writePixel, mkDisplayFrame, c3step_eq]
  · simp [c3frame, writePixelResult, writePixel, mkDisplayFrame, c3step_eq]

/-- Gamma display of an oversaturated channel (1.8 clamps to 1). -/
theorem displayLevel_nine_fifths : displayLevel (9/5) = 255 := by
  have hs : saturate (9/5 : ℚ) = 1 := by decide
  rw [displayLevel, hs]
  norm_num [Int.floor_eq_iff]

/-- Lower bound of the gamma curve at 0.6: (403/510)¹¹ ≤ (3/5)⁵. -/
theorem rpow_35_lb : (403/510 : ℝ) ≤ ((3:ℝ)/5) ^ ((5:ℝ)/11) := by
  have hx : (((3:ℝ)/5) ^ ((5:ℝ)/11)) ^ (11:ℕ) = ((3:ℝ)/5) ^ (5:ℕ) := by
    rw [← Real.rpow_natCast (((3:ℝ)/5) ^ ((5:ℝ)/11)) 11,
      ← Real.rpow_mul (by norm_num)]
    norm_num
  have h11 : (403/510 : ℝ) ^ (11:ℕ) ≤ (((3:ℝ)/5) ^ ((5:ℝ)/11)) ^ (11:ℕ) := by
    rw [hx]
    norm_num
  exact le_of_pow_le_pow_left (by norm_num)
    (Real.rpow_nonneg (by norm_num) _) h11

/-- Upper bound of the gamma curve at 0.6: (3/5)⁵ < (405/510)¹¹. -/
theorem rpow_35_ub : ((3:ℝ)/5) ^ ((5:ℝ)/11) < 405/510 := by
  have hx : (((3:ℝ)/5) ^ ((5:ℝ)/11)) ^ (11:ℕ) = ((3:ℝ)/5) ^ (5:ℕ) := by
    rw [← Real.rpow_natCast (((3:ℝ)/5) ^ ((5:ℝ)/11)) 11,
      ← Real.rpow_mul (by norm_num)]
    norm_num
  refine lt_of_pow_lt_pow_left 11 (by norm_num) ?_
  rw [hx]
  norm_num

/-- Gamma display of a 0.6 channel: ⌊255·0.6^(5/11) + 1/2⌋ = 202. -/
theorem displayLevel_three_fifths : displayLevel (3/5) = 202 := by
  have hs : saturate (3/5 : ℚ) = 3/5 := by decide
  rw [displayLevel, hs]
  have hcast : (((3/5 : ℚ)) : ℝ) = (3:ℝ)/5 := by norm_num
  rw [hcast, Int.floor_eq_iff]
  constructor
  · push_cast
    nlinarith [rpow_35_lb]
  · push_cast
    nlinarith [rpow_35_ub]

/-- C3 amended: on the empty scene with sky Light(0.2, 0.4, 0.6), every
depth-0 sample returns the tripled sky color (0.6, 1.2, 1.8) with `z_far`
recorded, the depth buffer of the written pixel holds `z_far`, and after
gamma the blue channel displays 255 (the tripled 1.8 saturates) while the
red channel — the tripled 0.2 — displays the claimed
round(255·0.6^(1/2.2)) = 202. -/
theorem c3_sky_rendering (orc : GeomOracle) (r : ray) (x y w h : ℕ)
    (res : TraceResult) :
    c3step orc r x y res =
      (⟨3/5, 6/5, 9/5⟩, r.stop,
       { res with color := ⟨3/5, 6/5, 9/5⟩,
                  normal := orc.normalizeV r.dir,
                  depth := 10000,
                  material_id := 7,
                  ray_count := 1 }, none) ∧
    (c3frame orc r x y res w h).depth_buffer x y = c3cam.z_far ∧
    displayLevel ((c3frame orc r x y res w h).render_target x y).z = 255 ∧
    displayLevel ((c3frame orc r x y res w h).render_target x y).x = 202 := by
  refine ⟨c3step_eq orc r x y res, ?_, ?_, ?_⟩
  · rw [(c3frame_vals orc r x y w h res).2]; rfl
  · rw [(c3frame_vals orc r x y w h res).1]
    exact displayLevel_nine_fifths
  · rw [(c3frame_vals orc r x y w h res).1]
    exact displayLevel_three_fifths

/-- C3 counterexample: the claim says the blue channel displays 202; on
the concrete scenario pixel it displays 255, because the sky blue 0.6 is
tripled to 1.8 before accumulation and saturates. -/
theorem c3_counterexample :
    displayLevel ((c3frame geomOracleId c3Ray 0 0 traceResultInit
      4 4).render_target 0 0).z = 255 ∧ (255 : ℤ) ≠ 202 := by
  constructor
  · rw [(c3frame_vals geomOracleId c3Ray 0 0 4 4 traceResultInit).1]
    exact displayLevel_nine_fifths
  · decide

theorem foldl_fixed {α β : Type} (f : α → β → α) (b : β) (a : α)
    (h : f a b = a) : ∀ n, List.foldl f a (List.replicate n b) = a := by
  intro n
  induction n with
  | zero => rfl
  | succ k ih => rw [List.replicate_succ, List.foldl_cons, h, ih]

theorem c1_objs_cons :
    c1Objs = clutterObj ::
      (List.replicate 179 clutterObj ++ [targetObj, markerObj]) := by
  rw [c1Objs, show (180 : ℕ) = 179 + 1 from rfl, List.replicate_succ,
    List.cons_append]

theorem c1_len : c1Objs.length = 182 := by
  rw [c1Objs, List.length_append, List.length_replicate]
  rfl

theorem sceneBuildRoot_cons (o : Object) (rest : List Object) (maxd : ℕ) :
    sceneBuildRoot (o :: rest) maxd =
      some (sceneBuildF (o :: rest) maxd maxd 0
        (rest.foldl (fun acc q => acc.union q.bb) o.bb)
        (List.range (o :: rest).length)) := rfl

theorem c1_rootBB_eval :
    (List.replicate 179 clutterObj ++ [targetObj, markerObj]).foldl
      (fun acc q => acc.union q.bb) clutterObj.bb = c1RootBB := by
  rw [List.foldl_append, foldl_fixed _ _ _ (by decide)]
  decide

theorem c1_buildF :
    sceneBuildF c1Objs 1 1 0 c1RootBB (List.range 182) = c1Root := by
  show sceneBuildF c1Objs 1 (0 + 1) 0 c1RootBB (List.range 182) = c1Root
  simp only [sceneBuildF]
  rw [if_neg (by simp), if_pos (by simp)]
  rfl

theorem c1_build : sceneBuildRoot c1Objs 1 = some c1Root := by
  have h := sceneBuildRoot_cons clutterObj
    (List.replicate 179 clutterObj ++ [targetObj, markerObj]) 1
  rw [← c1_objs_cons, c1_rootBB_eval, c1_len] at h
  rw [h, c1_buildF]

theorem c1_objTrace_clutter0 (h : ObjectCollision) :
    objTrace clutterObj c1Ray h = (false, h) := by
  rw [objTrace, show clutterObj.coll c1Ray = none from by decide]

theorem c1_objTrace_marker (h : ObjectCollision) :
    objTrace markerObj c1Ray h = (false, h) := by
  rw [objTrace, show markerObj.coll c1Ray = none from by decide]

theorem c1_objTrace_target :
    objTrace targetObj c1Ray ocolInit =
      (true, ⟨5/8, ⟨6, 2, 6⟩, ⟨0, 0, 1⟩, 0, 2, false⟩) := by
  rw [objTrace, show targetObj.coll c1Ray = some ⟨5/8, ⟨6, 2, 6⟩, ⟨0, 0, 1⟩⟩
    from by decide]
  norm_num [ocolInit, targetObj]

theorem c1_linear :
    linearSweep c1Objs c1Ray ocolInit =
      (true, ⟨5/8, ⟨6, 2, 6⟩, ⟨0, 0, 1⟩, 0, 2, false⟩) := by
  rw [linearSweep, c1Objs, List.foldl_append,
    foldl_fixed _ _ _ (by simp [c1_objTrace_clutter0])]
  simp only [List.foldl_cons, List.foldl_nil]
  simp only [c1_objTrace_target]
  simp only [c1_objTrace_marker]
  rfl

theorem c1_objAt_lt (j : ℕ) (hj : j < 180) : objAt c1Objs j = clutterObj := by
  rw [objAt, c1Objs, List.getD_eq_getElem?_getD, List.getElem?_append,
    List.length_replicate, if_pos hj, List.getElem?_replicate, if_pos hj]
  rfl

theorem c1_objAt_180 : objAt c1Objs 180 = targetObj := by
  rw [objAt, c1Objs, List.getD_eq_getElem?_getD,
    List.getElem?_append_right
      (by rw [List.length_replicate] : (List.replicate 180 clutterObj).length ≤ 180),
    List.length_replicate]
  rfl

theorem c1_objAt_181 : objAt c1Objs 181 = markerObj := by
  rw [objAt, c1Objs, List.getD_eq_getElem?_getD,
    List.getElem?_append_right
      (by rw [List.length_replicate]; omega :
        (List.replicate 180 clutterObj).length ≤ 181),
    List.length_replicate]
  rfl

theorem foldl_id {α β : Type} (f : α → β → α) (l : List β)
    (h : ∀ a b, b ∈ l → f a b = a) : ∀ a, l.foldl f a = a := by
  induction l with
  | nil => intro a; rfl
  | cons x xs ih =>
      intro a
      rw [List.foldl_cons, h a x (by simp)]
      exact ih (fun a b hb => h a b (by simp [hb])) a

theorem c1_leafScan (payload : List ℕ)
    (hp : ∀ j ∈ payload, objAt c1Objs j = clutterObj) :
    leafScan c1Objs payload c1Ray ocolInit = (false, ocolInit) := by
  rw [leafScan, foldl_id]
  intro a j hj
  simp only [hp j hj, c1_objTrace_clutter0]
  simp

theorem c1_filt0_clutter : ∀ j ∈ c1filt 0, objAt c1Objs j = clutterObj := by
  intro j hj
  rw [c1filt] at hj
  simp only [List.mem_filter, List.mem_range] at hj
  obtain ⟨hlt, hpred⟩ := hj
  by_cases h180 : j < 180
  · exact c1_objAt_lt j h180
  · have hj2 : j = 180 ∨ j = 181 := by omega
    rcases hj2 with h | h
    · subst h
      rw [c1_objAt_180] at hpred
      exact absurd hpred (by decide)
    · subst h
      rw [c1_objAt_181] at hpred
      exact absurd hpred (by decide)

theorem c1_child0_get :
    c1Children.get? 0 =
      some (.mk (childBounds c1RootBB 0) true (c1filt 0) []) := by
  rw [c1Children]
  rfl

theorem c1_root_step (fuel : ℕ) :
    runTrace c1Objs c1Ray (fuel + 1) (.node c1Root ocolInit) =
      runTrace c1Objs c1Ray fuel
        (.loop c1Children c1RootBB 4
          ⟨0, true, false, true, ⟨1/4, ⟨4, 2, 4⟩, ⟨1, 0, 0⟩⟩,
           collisionDefault, ⟨1/4, ⟨4, 2, 4⟩, ⟨0, 0, 1⟩⟩, ⟨0, 2, 0⟩,
           false, ocolInit⟩) := by
  simp only [runTrace, c1Root, SceneBvhNode.bb, SceneBvhNode.is_leaf,
    SceneBvhNode.children]
  rw [show ray_intersect_bounds c1RootBB c1Ray =
    some ⟨1/4, ⟨0, 2, 0⟩, 0⟩ from by decide]
  simp only []
  rw [if_neg (show ¬(ocolInit.param < (1/4 : ℚ)) from by norm_num [ocolInit])]
  rw [if_neg (show ¬(false = true) from by simp)]
  rw [show point_in_bounds c1RootBB c1Ray.start = false from by decide]
  rw [if_neg (show ¬(false = true) from by simp)]
  rw [show closestChild c1RootBB
    (⟨1/4, ⟨0, 2, 0⟩, 0⟩ : collision).point = 0 from by decide]
  rw [show ray_plane_b (splitPlane c1RootBB 0)
    (⟨1/4, ⟨0, 2, 0⟩, 0⟩ : collision).point c1Ray.dir =
    (true, ⟨1/4, ⟨4, 2, 4⟩, ⟨1, 0, 0⟩⟩) from by decide]
  rw [show ray_plane_b (splitPlane c1RootBB 1)
    (⟨1/4, ⟨0, 2, 0⟩, 0⟩ : collision).point c1Ray.dir =
    (false, collisionDefault) from by decide]
  rw [show ray_plane_b (splitPlane c1RootBB 2)
    (⟨1/4, ⟨0, 2, 0⟩, 0⟩ : collision).point c1Ray.dir =
    (true, ⟨1/4, ⟨4, 2, 4⟩, ⟨0, 0, 1⟩⟩) from by decide]

theorem c1_loop_step (fuel : ℕ) :
    runTrace c1Objs c1Ray (fuel + 1 + 1)
      (.loop c1Children c1RootBB 4
        ⟨0, true, false, true, ⟨1/4, ⟨4, 2, 4⟩, ⟨1, 0, 0⟩⟩,
         collisionDefault, ⟨1/4, ⟨4, 2, 4⟩, ⟨0, 0, 1⟩⟩, ⟨0, 2, 0⟩,
         false, ocolInit⟩) = (false, ocolInit) := by
  have h4 : (4 : ℕ) = 3 + 1 := rfl
  rw [h4]
  simp only [runTrace, SceneBvhNode.bb, SceneBvhNode.is_leaf,
    SceneBvhNode.objIdx, SceneBvhNode.children]
  rw [c1_child0_get]
  simp only []
  rw [show ray_intersect_bounds (childBounds c1RootBB 0) c1Ray =
    some ⟨1/4, ⟨0, 2, 0⟩, 0⟩ from by decide]
  simp only []
  rw [if_neg (show ¬(ocolInit.param < (1/4 : ℚ)) from by norm_num [ocolInit])]
  rw [if_pos trivial]
  rw [c1_leafScan _ c1_filt0_clutter]
  norm_num [infParam, collisionDefault]

theorem c1_bvh : sceneBvhTrace c1Objs 1 c1Ray ocolInit = (false, ocolInit) := by
  unfold sceneBvhTrace
  rw [c1_build]
  show runTrace c1Objs c1Ray (23 + 1) (.node c1Root ocolInit) =
    (false, ocolInit)
  rw [c1_root_step]
  exact c1_loop_step 21

theorem idealDepth_182 : idealDepth 182 = 1 := by
  rw [idealDepth, if_pos (by norm_num)]
  have h : Nat.findGreatest (fun k => 8 ^ (2 * k + 3) ≤ 182 ^ 2) 182 = 1 := by
    rw [Nat.findGreatest_eq_iff]
    refine ⟨by norm_num, fun _ => by norm_num, ?_⟩
    intro n h1 h2 hP
    have h3 : (8 : ℕ) ^ 7 ≤ 8 ^ (2 * n + 3) :=
      Nat.pow_le_pow_right (by norm_num) (by omega)
    have h4 : (182 : ℕ) ^ 2 < 8 ^ 7 := by norm_num
    have h5 := le_trans h3 hP
    exact absurd h5 (by omega)
  rw [h]
  rfl

theorem c1_sceneTrace : sceneTrace c1Objs c1Ray ocolInit = (false, ocolInit) := by
  unfold sceneTrace
  rw [c1_len, idealDepth_182]
  rw [if_pos (by norm_num)]
  show (((sceneBvhTrace c1Objs (1 : ℤ).toNat c1Ray ocolInit)).1,
    backFaceAdjust c1Ray (sceneBvhTrace c1Objs (1 : ℤ).toNat c1Ray ocolInit).2) = _
  rw [show ((1 : ℤ).toNat) = 1 from rfl, c1_bvh]
  rw [show backFaceAdjust c1Ray ocolInit = ocolInit from by decide]

theorem linearSweep_eq_foldl (objs : List Object) (r : ray)
    (h : ObjectCollision) :
    linearSweep objs r h = objs.foldl (linStep r) (false, h) := rfl

theorem objTrace_param_le (o : Object) (r : ray) (h : ObjectCollision) :
    (objTrace o r h).2.param ≤ h.param := by
  unfold objTrace
  rcases o.coll r with _ | c
  · exact le_refl _
  · by_cases hlt : c.param < h.param
    · simp only [hlt, if_pos, if_true]
      exact le_of_lt hlt
    · simp only [hlt, if_false, if_neg]
      exact le_refl _

theorem objTrace_flag_false (o : Object) (r : ray) (h : ObjectCollision) :
    (objTrace o r h).1 = false → (objTrace o r h).2 = h := by
  unfold objTrace
  rcases o.coll r with _ | c
  · intro _; rfl
  · by_cases hlt : c.param < h.param
    · simp [hlt]
    · simp [hlt]

theorem objTrace_commit (o : Object) (r : ray) (h : ObjectCollision)
    (c : collision) (hc : o.coll r = some c) :
    (objTrace o r h).2.param ≤ c.param := by
  unfold objTrace
  rw [hc]
  by_cases hlt : c.param < h.param
  · simp [hlt]
  · simp only [hlt, if_false, if_neg]
    exact le_of_not_lt hlt

theorem objTrace_commits (o : Object) (r : ray) (h : ObjectCollision)
    (c : collision) (hc : o.coll r = some c) (hlt : c.param < h.param) :
    (objTrace o r h).1 = true := by
  unfold objTrace
  rw [hc]
  simp [hlt]

theorem foldl_linStep_or (r : ray) (objs : List Object) :
    ∀ (b : Bool) (h : ObjectCollision),
      objs.foldl (linStep r) (b, h) =
        (b || (objs.foldl (linStep r) (false, h)).1,
         (objs.foldl (linStep r) (false, h)).2) := by
  induction objs with
  | nil => intro b h; simp
  | cons o rest ih =>
      intro b h
      rw [List.foldl_cons, List.foldl_cons]
      rw [show linStep r (b, h) o = (b || (objTrace o r h).1, (objTrace o r h).2)
        from rfl]
      rw [show linStep r (false, h) o =
        (false || (objTrace o r h).1, (objTrace o r h).2) from rfl]
      rw [ih (b || (objTrace o r h).1), ih (false || (objTrace o r h).1)]
      simp [Bool.or_assoc]

theorem linearSweep_cons (o : Object) (objs : List Object) (r : ray)
    (h : ObjectCollision) :
    linearSweep (o :: objs) r h =
      ((objTrace o r h).1 || (linearSweep objs r (objTrace o r h).2).1,
       (linearSweep objs r (objTrace o r h).2).2) := by
  rw [linearSweep_eq_foldl, List.foldl_cons]
  rw [show linStep r (false, h) o =
    (false || (objTrace o r h).1, (objTrace o r h).2) from rfl]
  rw [foldl_linStep_or]
  rw [← linearSweep_eq_foldl]
  simp

theorem lin_param_le (objs : List Object) (r : ray) :
    ∀ (h : ObjectCollision), (linearSweep objs r h).2.param ≤ h.param := by
  induction objs with
  | nil => intro h; exact le_refl _
  | cons o rest ih =>
      intro h
      rw [linearSweep_cons]
      exact le_trans (ih (objTrace o r h).2) (objTrace_param_le o r h)

theorem lin_param_le_cand (objs : List Object) (r : ray) :
    ∀ (h : ObjectCollision) (o : Object) (c : collision), o ∈ objs →
      o.coll r = some c → (linearSweep objs r h).2.param ≤ c.param := by
  induction objs with
  | nil => intro h o c ho; exact absurd ho (by simp)
  | cons p rest ih =>
      intro h o c ho hc
      rw [linearSweep_cons]
      rcases List.mem_cons.mp ho with he | ht
      · exact le_trans (lin_param_le rest r _)
          (objTrace_commit p r h c (he ▸ hc))
      · exact ih _ o c ht hc

theorem lin_flag_of_cand (objs : List Object) (r : ray) :
    ∀ (h : ObjectCollision) (o : Object) (c : collision), o ∈ objs →
      o.coll r = some c → c.param < h.param →
      (linearSweep objs r h).1 = true := by
  induction objs with
  | nil => intro h o c ho; exact absurd ho (by simp)
  | cons p rest ih =>
      intro h o c ho hc hlt
      rw [linearSweep_cons]
      rcases List.mem_cons.mp ho with he | ht
      · rw [objTrace_commits p r h c (he ▸ hc) hlt]
        simp
      · by_cases hp : (objTrace p r h).1 = true
        · rw [hp]; simp
        · have hp2 := objTrace_flag_false p r h (by simpa using hp)
          rw [ih _ o c ht hc (by rw [hp2]; exact hlt)]
          simp

theorem objTrace_cases (o : Object) (r : ray) (h : ObjectCollision) :
    objTrace o r h = (false, h) ∨
    ((objTrace o r h).1 = true ∧
      (∃ c, o.coll r = some c ∧ (objTrace o r h).2.param = c.param) ∧
      (objTrace o r h).2.param < h.param) := by
  unfold objTrace
  rcases hc : o.coll r with _ | c
  · left; rfl
  · by_cases hlt : c.param < h.param
    · right
      refine ⟨by simp [hlt], ⟨c, rfl, by simp [hlt]⟩, by simp [hlt]⟩
    · left; simp [hlt]

theorem objAt_mem (objs : List Object) (oi : ℕ) (hlen : oi < objs.length) :
    objAt objs oi ∈ objs := by
  rw [objAt, List.getD_eq_getElem?_getD, List.getElem?_eq_getElem hlen]
  exact List.getElem_mem hlen

theorem objAt_big (objs : List Object) (oi : ℕ) (hlen : ¬ oi < objs.length)
    (r : ray) (h : ObjectCollision) :
    objTrace (objAt objs oi) r h = (false, h) := by
  rw [objAt, List.getD_eq_getElem?_getD,
    List.getElem?_eq_none (by omega)]
  rfl

theorem objAt_sound (objs : List Object) (r : ray) (oi : ℕ)
    (h : ObjectCollision) :
    objTrace (objAt objs oi) r h = (false, h) ∨
    ((objTrace (objAt objs oi) r h).1 = true ∧
      IsCand objs r (objTrace (objAt objs oi) r h).2 ∧
      (objTrace (objAt objs oi) r h).2.param < h.param) := by
  by_cases hlen : oi < objs.length
  · rcases objTrace_cases (objAt objs oi) r h with h1 | ⟨hf, ⟨c, hc, hp⟩, hlt⟩
    · left; exact h1
    · right
      exact ⟨hf, ⟨objAt objs oi, objAt_mem objs oi hlen, c, hc, hp⟩, hlt⟩
  · left; exact objAt_big objs oi hlen r h

theorem leafScan_eq (objs : List Object) (payload : List ℕ) (r : ray)
    (h : ObjectCollision) :
    leafScan objs payload r h =
      ((payload.foldl (leafStep objs r) (false, h, ocolInit)).1,
       (payload.foldl (leafStep objs r) (false, h, ocolInit)).2.1) := rfl

theorem leafScan_sound (objs : List Object) (payload : List ℕ) (r : ray)
    (h : ObjectCollision) : Sound objs r h (leafScan objs payload r h) := by
  rw [leafScan_eq]
  suffices hs : ∀ acc : Bool × ObjectCollision × ObjectCollision,
      Sound objs r h (acc.1, acc.2.1) →
      Sound objs r h ((payload.foldl (leafStep objs r) acc).1,
        (payload.foldl (leafStep objs r) acc).2.1) by
    exact hs (false, h, ocolInit) ⟨fun _ => rfl, by simp⟩
  induction payload with
  | nil => intro acc ha; exact ha
  | cons oi rest ih =>
      intro acc ha
      rw [List.foldl_cons]
      apply ih
      unfold leafStep
      by_cases hcond : (objTrace (objAt objs oi) r acc.2.2).1 = true ∧
          (objTrace (objAt objs oi) r acc.2.2).2.param < acc.2.1.param
      · rw [if_pos (by simpa using hcond)]
        rcases objAt_sound objs r oi acc.2.2 with h1 | ⟨_, hcand, _⟩
        · rw [h1] at hcond
          exact absurd hcond.1 (by simp)
        · have hlt : (objTrace (objAt objs oi) r acc.2.2).2.param < h.param := by
            rcases hb : acc.1 with _ | _
            · have hacc : acc.2.1 = h := ha.1 (by rw [hb])
              rw [hacc] at hcond
              exact hcond.2
            · have := (ha.2 (by rw [hb])).2
              exact lt_trans hcond.2 this
          exact ⟨fun hx => absurd hx (by simp), fun _ => ⟨hcand, hlt⟩⟩
      · rw [if_neg (by simpa using hcond)]
        exact ha

theorem runTrace_sound (objs : List Object) (r : ray) :
    ∀ (fuel : ℕ) (t : TrTask),
      (∀ n h, t = .node n h → Sound objs r h (runTrace objs r fuel t)) ∧
      (∀ cs bb iter st (h0 : ObjectCollision), t = .loop cs bb iter st →
        Sound objs r h0 (st.res, st.hit) →
        Sound objs r h0 (runTrace objs r fuel t)) := by
  intro fuel
  induction fuel with
  | zero =>
      intro t
      constructor
      · intro n h ht
        subst ht
        simp only [runTrace]
        exact ⟨fun _ => rfl, by simp⟩
      · intro cs bb iter st h0 ht hst
        subst ht
        simp only [runTrace]
        exact hst
  | succ fuel ih =>
      intro t
      constructor
      · intro n h ht
        subst ht
        simp only [runTrace]
        rcases hib : ray_intersect_bounds n.bb r with _ | nh
        · exact ⟨fun _ => rfl, by simp⟩
        · simp only []
          by_cases hcmp : h.param < nh.param
          · rw [if_pos hcmp]
            exact ⟨fun _ => rfl, by simp⟩
          · rw [if_neg hcmp]
            by_cases hleaf : n.is_leaf = true
            · rw [if_pos hleaf]
              exact leafScan_sound objs n.objIdx r h
            · rw [if_neg hleaf]
              by_cases hin : point_in_bounds n.bb r.start = true
              · rw [if_pos hin]
                split_ifs with hmiss
                · rcases hget : n.children.get?
                    (closestChild n.bb r.start) with _ | c
                  · exact ⟨fun _ => rfl, by simp⟩
                  · exact (ih (.node c h)).1 c h rfl
                · exact (ih _).2 _ _ _ _ h rfl ⟨fun _ => rfl, by simp⟩
              · rw [if_neg hin]
                exact (ih _).2 _ _ _ _ h rfl ⟨fun _ => rfl, by simp⟩
      · intro cs bb iter st h0 ht hst
        subst ht
        rcases iter with _ | iter
        · simp only [runTrace]
          exact hst
        · simp only [runTrace]
          rcases hget : cs.get? st.closest with _ | c
          · -- no current child: just the step function on st
            simp only []
            split_ifs with h1 h2 h3 h4 h5 h6
            all_goals
              first
                | exact (ih _).2 _ _ _ _ h0 rfl hst
                | exact hst
          · simp only []
            have hs := (ih (.node c st.hit)).1 c st.hit rfl
            by_cases hs1 : (runTrace objs r fuel (.node c st.hit)).1 = true
            · have hcand := hs.2 hs1
              have hlt0 : (runTrace objs r fuel (.node c st.hit)).2.param <
                  h0.param := by
                rcases hb : st.res with _ | _
                · have hhit : st.hit = h0 := hst.1 (by rw [hb])
                  rw [← hhit]
                  exact hcand.2
                · exact lt_trans hcand.2 (hst.2 (by rw [hb])).2
              rw [if_pos hs1]
              by_cases hp : point_in_bounds c.bb
                  (runTrace objs r fuel (.node c st.hit)).2.point = true
              · rw [if_pos hp]
                exact ⟨fun hx => absurd hx (by simp),
                  fun _ => ⟨hcand.1, hlt0⟩⟩
              · rw [if_neg hp]
                have hstep : Sound objs r h0 (true,
                    (runTrace objs r fuel (.node c st.hit)).2) :=
                  ⟨fun hx => absurd hx (by simp), fun _ => ⟨hcand.1, hlt0⟩⟩
                split_ifs with h1 h2 h3 h4 h5 h6
                all_goals
                  first
                    | exact (ih _).2 _ _ _ _ h0 rfl hstep
                    | exact hstep
            · have hs2 : (runTrace objs r fuel (.node c st.hit)).2 = st.hit :=
                hs.1 (by simpa using hs1)
              rw [if_neg hs1]
              have hstep : Sound objs r h0 (st.res,
                  (runTrace objs r fuel (.node c st.hit)).2) := by
                rw [hs2]
                exact hst
              split_ifs with h1 h2 h3 h4 h5 h6
              all_goals
                first
                  | exact (ih _).2 _ _ _ _ h0 rfl hstep
                  | exact hstep

theorem backFaceAdjust_param (r : ray) (h : ObjectCollision) :
    (backFaceAdjust r h).param = h.param := by
  unfold backFaceAdjust
  split_ifs <;> rfl

theorem sceneBvhTrace_sound (objs : List Object) (maxd : ℕ) (r : ray)
    (h : ObjectCollision) :
    Sound objs r h (sceneBvhTrace objs maxd r h) := by
  unfold sceneBvhTrace
  rcases sceneBuildRoot objs maxd with _ | root
  · exact ⟨fun _ => rfl, by simp⟩
  · exact (runTrace_sound objs r (8 * (maxd + 2))
      (.node root h)).1 root h rfl

/-- C1 amended: whenever `Optimize` has made the scene BVH valid
(`ideal_depth > 0`), `Scene::Trace` through the BVH is conservative with
respect to the linear sweep on the same ray and record: the linear sweep's
parametric t is at most the BVH's, and a BVH-reported hit implies the
linear sweep reports one too.  Equality of the two parameters — the
original claim — fails: tied split-plane parameters break the traversal
loop early and can hide the only hit (see the counterexample). -/
theorem c1_bvh_conservative (objs : List Object) (r : ray)
    (h : ObjectCollision) (hd : 0 < idealDepth objs.length) :
    (linearSweep objs r h).2.param ≤ (sceneTrace objs r h).2.param ∧
    ((sceneTrace objs r h).1 = true → (linearSweep objs r h).1 = true) := by
  unfold sceneTrace
  rw [if_pos hd]
  have hs := sceneBvhTrace_sound objs (idealDepth objs.length).toNat r h
  constructor
  · show _ ≤ (backFaceAdjust r
      (sceneBvhTrace objs (idealDepth objs.length).toNat r h).2).param
    rw [backFaceAdjust_param]
    rcases hb : (sceneBvhTrace objs (idealDepth objs.length).toNat r h).1
      with _ | _
    · rw [hs.1 (by rw [hb])]
      exact lin_param_le objs r h
    · obtain ⟨⟨o, ho, c, hc, hp⟩, _⟩ := hs.2 (by rw [hb])
      rw [hp]
      exact lin_param_le_cand objs r h o c ho hc
  · intro hflag
    have hflag2 : (sceneBvhTrace objs (idealDepth objs.length).toNat r h).1 =
        true := hflag
    obtain ⟨⟨o, ho, c, hc, hp⟩, hlt⟩ := hs.2 hflag2
    rw [hp] at hlt
    exact lin_flag_of_cand objs r h o c ho hc hlt

/-- C1 counterexample: a 182-object scene (`ideal_depth = 1`, so the BVH
path is taken) and a ray on which the linear sweep finds the target at
t = 5/8 while the BVH traversal reports a miss with the record left at the
default parameter 2: the x- and z-split planes of the root are hit at the
same parameter, the strict tie-break chain of `TraceInternal` falls
through, and the loop exits after the first (empty) octant. -/
theorem c1_counterexample :
    0 < idealDepth c1Objs.length ∧
    (linearSweep c1Objs c1Ray ocolInit).1 = true ∧
    (linearSweep c1Objs c1Ray ocolInit).2.param = 5/8 ∧
    (sceneTrace c1Objs c1Ray ocolInit).1 = false ∧
    (sceneTrace c1Objs c1Ray ocolInit).2.param = 2 ∧
    (5/8 : ℚ) ≠ 2 := by
  refine ⟨by rw [c1_len, idealDepth_182]; norm_num, ?_, ?_, ?_, ?_, by norm_num⟩
  · rw [c1_linear]
  · rw [c1_linear]
  · rw [c1_sceneTrace]
  · rw [c1_sceneTrace]
    rfl

/-- Witness for C1 on the concrete 182-object scene. -/
theorem c1_bvh_conservative_witness :
    0 < idealDepth c1Objs.length ∧
    ((linearSweep c1Objs c1Ray ocolInit).2.param ≤
        (sceneTrace c1Objs c1Ray ocolInit).2.param ∧
      ((sceneTrace c1Objs c1Ray ocolInit).1 = true →
        (linearSweep c1Objs c1Ray ocolInit).1 = true)) :=
  ⟨by simp [c1_len, idealDepth_182],
   c1_bvh_conservative c1Objs c1Ray ocolInit
     (by simp [c1_len, idealDepth_182])⟩

end FSPT
